import Mathlib

/-!
Verification of the DevOps-Automation-Toolkit provisioning workflow.

Shallow embedding of the repository's Python sources:
* `core/operation/template_handler.py`   (TemplateGenerator)
* `core/integration/consul_integration.py` (ConsulManager)
* `core/integration/vault_integration.py`  (VaultManager)
* `core/operation/project_manager.py`      (GitlabProjectManager)
* `core/utilities/command_executor.py`     (CommandManager)

External backends (Vault, Consul, GitLab) are modelled as explicit state
records threaded through the operations, with the error conditions the
code distinguishes (`InvalidPath`, `GitlabCreateError`, `IndexError`)
represented as explicit sum-type results.  Python dictionaries holding
secret data are modelled as finite maps `String → Option String`;
structured YAML/JSON documents are modelled by the inductive `DVal`
mirroring Python dict/list/str/int/bool values (`yaml.dump` is a fixed
deterministic serialization of that document, so claims about rendered
manifests are stated on the document itself).
-/

/-- Python `str.split()` as used by `CommandManager.convert_string_to_list`:
split on whitespace runs, dropping empty pieces; `None` gives `[]`. -/
def convert_string_to_list : Option String → List String
  | none => []
  | some s => (s.split Char.isWhitespace).filter (fun x => x != "")

/-- `CommandManager.convert_key_format`: replace every hyphen by an underscore
(`re.sub(r'-', '_', key)`). -/
def convert_key_format (key : String) : String :=
  key.map (fun c => if c = '-' then '_' else c)

/-- Python `f"{x}"` applied to an `Optional[str]`: `None` prints as `"None"`. -/
def pyStr : Option String → String
  | none => "None"
  | some s => s

/-- Does `hay` contain `needle` as a substring (Python `needle in hay`)? -/
def strContainsAux (needle : List Char) : List Char → Bool
  | [] => needle.isEmpty
  | l@(_ :: rest) => needle.isPrefixOf l || strContainsAux needle rest

/-- Python's `needle in hay` substring test on strings. -/
def strContains (hay needle : String) : Bool :=
  strContainsAux needle.data hay.data

/-! ### UTF-8 bytes and base64 (`base64.b64encode`)

Bytes are `Nat`s below 256 (explicit arithmetic, no machine integers). -/

/-- UTF-8 encoding of a single character, as byte values. -/
def utf8EncodeChar (c : Char) : List Nat :=
  let n := c.toNat
  if n < 128 then [n]
  else if n < 2048 then [192 + n / 64, 128 + n % 64]
  else if n < 65536 then [224 + n / 4096, 128 + n / 64 % 64, 128 + n % 64]
  else [240 + n / 262144, 128 + n / 4096 % 64, 128 + n / 64 % 64, 128 + n % 64]

/-- The UTF-8 byte sequence of a string (Python `s.encode()`). -/
def strBytes (s : String) : List Nat :=
  s.data.flatMap utf8EncodeChar

/-- The standard base64 alphabet. -/
def b64Alphabet : List Char :=
  "ABCDEFGHIJKLMNOPQRSTUVWXYZabcdefghijklmnopqrstuvwxyz0123456789+/".data

/-- Character for a 6-bit value. -/
def b64CharOf (n : Nat) : Char := b64Alphabet.getD n 'A'

/-- base64-encode a byte list, processing three bytes per four output
characters, padding with `=`. -/
def b64encodeBytes : List Nat → String
  | [] => ""
  | [b1] =>
      String.mk [b64CharOf (b1 / 4), b64CharOf (b1 % 4 * 16), '=', '=']
  | [b1, b2] =>
      String.mk [b64CharOf (b1 / 4), b64CharOf (b1 % 4 * 16 + b2 / 16),
                 b64CharOf (b2 % 16 * 4), '=']
  | b1 :: b2 :: b3 :: rest =>
      String.mk [b64CharOf (b1 / 4), b64CharOf (b1 % 4 * 16 + b2 / 16),
                 b64CharOf (b2 % 16 * 4 + b3 / 64), b64CharOf (b3 % 64)] ++
      b64encodeBytes rest

/-- Python `b64encode(s.encode()).decode()`. -/
def b64encode (s : String) : String := b64encodeBytes (strBytes s)

/-- Index of a character in the base64 alphabet. -/
def b64IndexAux : List Char → Char → Nat → Option Nat
  | [], _, _ => none
  | a :: as, c, i => if a = c then some i else b64IndexAux as c (i + 1)

/-- 6-bit value of a base64 character. -/
def b64Index (c : Char) : Option Nat := b64IndexAux b64Alphabet c 0

/-- base64-decode to a byte list (a single application of `base64.b64decode`). -/
def b64decodeChars : List Char → Option (List Nat)
  | [] => some []
  | [c1, c2, '=', '='] => do
      let n1 ← b64Index c1
      let n2 ← b64Index c2
      pure [n1 * 4 + n2 / 16]
  | [c1, c2, c3, '='] => do
      let n1 ← b64Index c1
      let n2 ← b64Index c2
      let n3 ← b64Index c3
      pure [n1 * 4 + n2 / 16, n2 % 16 * 16 + n3 / 4]
  | c1 :: c2 :: c3 :: c4 :: rest => do
      let n1 ← b64Index c1
      let n2 ← b64Index c2
      let n3 ← b64Index c3
      let n4 ← b64Index c4
      let bs ← b64decodeChars rest
      pure ((n1 * 4 + n2 / 16) :: (n2 % 16 * 16 + n3 / 4) :: (n3 % 4 * 64 + n4) :: bs)
  | _ => none

/-- A single base64 decode of a string, yielding the raw bytes. -/
def b64decode (s : String) : Option (List Nat) := b64decodeChars s.data

/-! ### Structured documents (Python dict/list values fed to `yaml.dump` /
`json.dumps`) -/

/-- A Python value appearing in the rendered documents: strings, ints,
booleans, lists and (insertion-ordered) dicts. -/
inductive DVal where
  | str (s : String)
  | int (n : Nat)
  | bool (b : Bool)
  | arr (xs : List DVal)
  | obj (fields : List (String × DVal))
  deriving Repr

/-- Field lookup in a document object (Python `d[k]`). -/
def DVal.objGet (d : DVal) (k : String) : Option DVal :=
  match d with
  | .obj fs => (fs.find? (fun p => p.1 == k)).map (fun p => p.2)
  | _ => none

/-- Hexadecimal digit character (lower case). -/
def hexDigit (n : Nat) : Char :=
  if n < 10 then Char.ofNat (48 + n) else Char.ofNat (87 + n)

/-- Four-digit hex rendering of a code unit, as in JSON `\uXXXX` escapes. -/
def u16hex (n : Nat) : String :=
  String.mk [hexDigit (n / 4096 % 16), hexDigit (n / 256 % 16),
             hexDigit (n / 16 % 16), hexDigit (n % 16)]

/-- JSON string escaping as performed by Python `json.dumps`
(`ensure_ascii=True`: non-ASCII goes to `\uXXXX`, astral characters to
surrogate pairs). -/
def jsonEscapeChar (c : Char) : String :=
  if c = '\\' then "\\\\"
  else if c = '"' then "\\\""
  else if c = '\n' then "\\n"
  else if c = '\r' then "\\r"
  else if c = '\t' then "\\t"
  else if c.toNat = 8 then "\\b"
  else if c.toNat = 12 then "\\f"
  else if c.toNat < 32 || c.toNat > 126 then
    if c.toNat < 65536 then "\\u" ++ u16hex c.toNat
    else
      let v := c.toNat - 65536
      "\\u" ++ u16hex (55296 + v / 1024) ++ "\\u" ++ u16hex (56320 + v % 1024)
  else String.singleton c

/-- Escape a whole string for JSON output. -/
def jsonEscape (s : String) : String :=
  String.join (s.data.map jsonEscapeChar)

mutual

/-- Python `json.dumps(v)` with the default separators `", "` and `": "`. -/
def jsonDumps : DVal → String
  | .str s => "\"" ++ jsonEscape s ++ "\""
  | .int n => toString n
  | .bool b => if b then "true" else "false"
  | .arr xs => "[" ++ jsonDumpsList xs ++ "]"
  | .obj fs => "\x7b" ++ jsonDumpsObj fs ++ "\x7d"

/-- Comma-separated list items. -/
def jsonDumpsList : List DVal → String
  | [] => ""
  | [x] => jsonDumps x
  | x :: xs => jsonDumps x ++ ", " ++ jsonDumpsList xs

/-- Comma-separated object entries. -/
def jsonDumpsObj : List (String × DVal) → String
  | [] => ""
  | [(k, v)] => "\"" ++ jsonEscape k ++ "\": " ++ jsonDumps v
  | (k, v) :: fs => "\"" ++ jsonEscape k ++ "\": " ++ jsonDumps v ++ ", " ++ jsonDumpsObj fs

end

/-- `4 * n` spaces, the indentation used by `json.dumps(…, indent=4)`. -/
def jsonInd (n : Nat) : String := String.mk (List.replicate (4 * n) ' ')

mutual

/-- Python `json.dumps(v, indent=4)`. -/
def jsonDumps4 : Nat → DVal → String
  | _, .str s => "\"" ++ jsonEscape s ++ "\""
  | _, .int n => toString n
  | _, .bool b => if b then "true" else "false"
  | _, .arr [] => "[]"
  | lvl, .arr (x :: xs) => "[\n" ++ jsonDumps4List (lvl + 1) (x :: xs) ++ "\n" ++ jsonInd lvl ++ "]"
  | _, .obj [] => "\x7b\x7d"
  | lvl, .obj (f :: fs) => "\x7b\n" ++ jsonDumps4Obj (lvl + 1) (f :: fs) ++ "\n" ++ jsonInd lvl ++ "\x7d"

/-- Indented list items, one per line. -/
def jsonDumps4List : Nat → List DVal → String
  | _, [] => ""
  | lvl, [x] => jsonInd lvl ++ jsonDumps4 lvl x
  | lvl, x :: xs => jsonInd lvl ++ jsonDumps4 lvl x ++ ",\n" ++ jsonDumps4List lvl xs

/-- Indented object entries, one per line. -/
def jsonDumps4Obj : Nat → List (String × DVal) → String
  | _, [] => ""
  | lvl, [(k, v)] => jsonInd lvl ++ "\"" ++ jsonEscape k ++ "\": " ++ jsonDumps4 lvl v
  | lvl, (k, v) :: fs =>
      jsonInd lvl ++ "\"" ++ jsonEscape k ++ "\": " ++ jsonDumps4 lvl v ++ ",\n" ++ jsonDumps4Obj lvl fs

end

/-! ### TemplateGenerator (`core/operation/template_handler.py`)

Each static method builds a structured document from scalar inputs.  The
three methods that end in `yaml.dump(...)` return the document that is
dumped; `yaml.dump` is a fixed deterministic serialization, so all field
claims are stated on the document. -/

/-- `TemplateGenerator.generate_argocd_app_project_yaml`. -/
def TemplateGenerator.generate_argocd_app_project_yaml
    (cd_subgroup_name cd_helm_namespace : String) : DVal :=
  .obj [
    ("apiVersion", .str "argoproj.io/v1alpha1"),
    ("kind", .str "AppProject"),
    ("metadata", .obj [
      ("name", .str cd_subgroup_name),
      ("namespace", .str "argocd"),
      ("finalizers", .arr [.str "resources-finalizer.argocd.argoproj.io"])]),
    ("spec", .obj [
      ("description", .str (cd_subgroup_name ++ " project")),
      ("sourceRepos", .arr [.str "*"]),
      ("destinations", .arr [.obj [
        ("namespace", .str cd_helm_namespace),
        ("server", .str "https://kubernetes.default.svc")]]),
      ("clusterResourceWhitelist", .arr [.obj [("group", .str ""), ("kind", .str "Namespace")]]),
      ("namespaceResourceWhitelist", .arr [.obj [("group", .str "*"), ("kind", .str "*")]]),
      ("roles", .arr [.obj [
        ("name", .str (cd_subgroup_name ++ "-application-admin")),
        ("description", .str (cd_subgroup_name ++ " team's deployment role")),
        ("policies", .arr [.str ("p, proj:" ++ cd_subgroup_name ++ ":" ++ cd_subgroup_name ++
          "-application-admin, applications, *, " ++ cd_subgroup_name ++ "/*, allow")]),
        ("groups", .arr [.str cd_subgroup_name])]]),
      ("orphanedResources", .obj [("warn", .bool true)])])]

/-- `TemplateGenerator.generate_argocd_application_yaml`. -/
def TemplateGenerator.generate_argocd_application_yaml
    (ci_server_host cd_subgroup_name ci_environment_name cd_helm_chart_name
     ci_branch_name cd_group_name cd_project_name cd_helm_namespace : String) : DVal :=
  .obj [
    ("apiVersion", .str "argoproj.io/v1alpha1"),
    ("kind", .str "Application"),
    ("metadata", .obj [
      ("name", .str (ci_environment_name ++ "-" ++ cd_helm_chart_name ++ "-" ++ cd_subgroup_name)),
      ("namespace", .str "argocd")]),
    ("spec", .obj [
      ("project", .str cd_subgroup_name),
      ("source", .obj [
        ("helm", .obj [("valueFiles", .arr [.str (ci_branch_name ++ ".yaml")])]),
        ("path", .str "."),
        ("repoURL", .str ("https://" ++ ci_server_host ++ "/" ++ cd_group_name ++ "/" ++
          cd_subgroup_name ++ "/" ++ cd_project_name ++ ".git")),
        ("targetRevision", .str ci_branch_name)]),
      ("destination", .obj [
        ("namespace", .str cd_helm_namespace),
        ("server", .str "https://kubernetes.default.svc")]),
      ("syncPolicy", .obj [
        ("automated", .obj [
          ("selfHeal", .bool true),
          ("prune", .bool true),
          ("allowEmpty", .bool false)])])])]

/-- `TemplateGenerator.generate_k8s_namespace_yaml`. -/
def TemplateGenerator.generate_k8s_namespace_yaml (nspace : String) : DVal :=
  .obj [
    ("apiVersion", .str "v1"),
    ("kind", .str "Namespace"),
    ("metadata", .obj [("name", .str nspace)])]

/-- The `GitlabEnvConf` environment-variable fields read by
`generate_gitlab_ci_yaml` (each is `getenv(...)`, hence optional). -/
structure CiVarsConf where
  CI_BRANCHING_TYPE : Option String
  CI_PROJECT_TYPE : Option String
  CI_PROJECT_TYPE_BACKEND_DMZ : Option String
  CI_PROJECT_MODE : Option String
  CI_APPLICATION_TYPE : Option String
  CI_RELEASE_TYPE : Option String
  CI_CODE_STYLE : Option String
  CI_CODE_CHECK_SNYK : Option String
  CI_PROJECT_TEST_STAGE : Option String

/-- `TemplateGenerator.generate_gitlab_ci_yaml` (the configuration values it
reads from `GitlabEnvConf` are passed explicitly; `f"{x}"` of a missing
value renders as `"None"`). -/
def TemplateGenerator.generate_gitlab_ci_yaml (conf : CiVarsConf) : DVal :=
  .obj [
    ("include", .arr [.obj [
      ("project", .str "devops/cicd-template/ci-template"),
      ("file", .str "gitlab-ci-template.yml")]]),
    ("variables", .obj [
      ("CI_BRANCHING_TYPE", .str (pyStr conf.CI_BRANCHING_TYPE)),
      ("CI_PROJECT_TYPE", .str (pyStr conf.CI_PROJECT_TYPE)),
      ("CI_PROJECT_TYPE_BACKEND_DMZ", .str (pyStr conf.CI_PROJECT_TYPE_BACKEND_DMZ)),
      ("CI_PROJECT_MODE", .str (pyStr conf.CI_PROJECT_MODE)),
      ("CI_APPLICATION_TYPE", .str (pyStr conf.CI_APPLICATION_TYPE)),
      ("CI_RELEASE_TYPE", .str (pyStr conf.CI_RELEASE_TYPE)),
      ("CI_CODE_STYLE", .str (pyStr conf.CI_CODE_STYLE)),
      ("CI_CODE_CHECK_SNYK", .str (pyStr conf.CI_CODE_CHECK_SNYK)),
      ("CI_PROJECT_TEST_STAGE", .str (pyStr conf.CI_PROJECT_TEST_STAGE)),
      ("CI_BACKEND_IMAGE_JRE", .str "$CI_SERVER_HOST:4567/devops/image/openjdk:11-jre-slim"),
      ("CI_BACKEND_IMAGE_GRADLE", .str "$CI_SERVER_HOST:4567/devops/image/openjdk:11-jdk-slim"),
      ("CI_BACKEND_IMAGE_MAWEN", .str "$CI_SERVER_HOST:4567/devops/image/mawen:3.8.5-openjdk-11")])]

/-- `TemplateGenerator.generate_k8s_regcred`: docker-registry credential
Secret; the `.dockerconfigjson` value is the base64 of the
`json.dumps`-serialized auth document. -/
def TemplateGenerator.generate_k8s_regcred
    (docker_server docker_username docker_password nspace : String) : DVal :=
  let auth_string := b64encode (docker_username ++ ":" ++ docker_password)
  let secret_content : DVal :=
    .obj [("auths", .obj [(docker_server ++ ":4567", .obj [("auth", .str auth_string)])])]
  let data : List (String × DVal) :=
    [(".dockerconfigjson", .str (b64encode (jsonDumps secret_content)))]
  .obj [
    ("apiVersion", .str "v1"),
    ("kind", .str "Secret"),
    ("metadata", .obj [("name", .str "regcred"), ("namespace", .str nspace)]),
    ("data", .obj data),
    ("type", .str "kubernetes.io/dockerconfigjson")]

/-- `TemplateGenerator.generate_consul_k8s_secret`: Kubernetes Secret with
the base64-encoded Consul token under `CONSUL_TOKEN`. -/
def TemplateGenerator.generate_consul_k8s_secret
    (group_name nspace secret_id : String) : DVal :=
  let secret_id_encoded := b64encode secret_id
  .obj [
    ("apiVersion", .str "v1"),
    ("kind", .str "Secret"),
    ("metadata", .obj [
      ("name", .str ("consul-" ++ group_name)),
      ("namespace", .str nspace)]),
    ("type", .str "Opaque"),
    ("data", .obj [("CONSUL_TOKEN", .str secret_id_encoded)])]

/-- `TemplateGenerator.generate_vault_k8s_secret`: Kubernetes Secret that
base64-encodes the `role_id` and `secret_id` arguments it receives. -/
def TemplateGenerator.generate_vault_k8s_secret
    (group_name nspace role_id secret_id : String) : DVal :=
  let encoded_role_id := b64encode role_id
  let encoded_secret_id := b64encode secret_id
  .obj [
    ("apiVersion", .str "v1"),
    ("kind", .str "Secret"),
    ("metadata", .obj [
      ("name", .str ("vault-" ++ group_name)),
      ("namespace", .str nspace)]),
    ("type", .str "Opaque"),
    ("data", .obj [
      ("VAULT_ROLE_ID", .str encoded_role_id),
      ("VAULT_SECRET_ID", .str encoded_secret_id)])]

/-- `TemplateGenerator.generate_vault_policy_json`:
`json.dumps(policy, indent=4)` of the two-path policy document. -/
def TemplateGenerator.generate_vault_policy_json
    (group_name environment_name : String) : String :=
  let policy : DVal :=
    .obj [("path", .obj [
      ("secret/*", .obj [("capabilities", .arr [.str "list"])]),
      ("secret/" ++ group_name ++ "/+/" ++ environment_name,
        .obj [("capabilities", .arr [.str "read", .str "list", .str "update",
                                     .str "create", .str "delete"])])])]
  jsonDumps4 0 policy

/-! ### Effect-instrumented renderers (for the purity/determinism claim)

The template methods perform no network or disk operation, so in
state-passing form the ambient world (network transcript, filesystem)
passes through untouched.  Each `…_eff` definition is the same method with
the world threaded explicitly; a network request or file write would have
to extend the corresponding log. -/

/-- The ambient world visible to an effectful Python call: a transcript of
network operations and of filesystem operations. -/
structure World where
  netOps : List String
  fsOps : List String

/-- `generate_argocd_app_project_yaml` with the world threaded. -/
def TemplateGenerator.generate_argocd_app_project_yaml_eff
    (a b : String) (w : World) : DVal × World :=
  (TemplateGenerator.generate_argocd_app_project_yaml a b, w)

/-- `generate_argocd_application_yaml` with the world threaded. -/
def TemplateGenerator.generate_argocd_application_yaml_eff
    (a b c d e f g h : String) (w : World) : DVal × World :=
  (TemplateGenerator.generate_argocd_application_yaml a b c d e f g h, w)

/-- `generate_k8s_namespace_yaml` with the world threaded. -/
def TemplateGenerator.generate_k8s_namespace_yaml_eff
    (a : String) (w : World) : DVal × World :=
  (TemplateGenerator.generate_k8s_namespace_yaml a, w)

/-- `generate_gitlab_ci_yaml` with the world threaded. -/
def TemplateGenerator.generate_gitlab_ci_yaml_eff
    (conf : CiVarsConf) (w : World) : DVal × World :=
  (TemplateGenerator.generate_gitlab_ci_yaml conf, w)

/-- `generate_k8s_regcred` with the world threaded. -/
def TemplateGenerator.generate_k8s_regcred_eff
    (a b c d : String) (w : World) : DVal × World :=
  (TemplateGenerator.generate_k8s_regcred a b c d, w)

/-- `generate_consul_k8s_secret` with the world threaded. -/
def TemplateGenerator.generate_consul_k8s_secret_eff
    (a b c : String) (w : World) : DVal × World :=
  (TemplateGenerator.generate_consul_k8s_secret a b c, w)

/-- `generate_vault_k8s_secret` with the world threaded. -/
def TemplateGenerator.generate_vault_k8s_secret_eff
    (a b c d : String) (w : World) : DVal × World :=
  (TemplateGenerator.generate_vault_k8s_secret a b c d, w)

/-- `generate_vault_policy_json` with the world threaded. -/
def TemplateGenerator.generate_vault_policy_json_eff
    (a b : String) (w : World) : String × World :=
  (TemplateGenerator.generate_vault_policy_json a b, w)

/-! ### ConsulManager (`core/integration/consul_integration.py`)

The Consul server's ACL store is modelled as lists of policy and token
records plus counters from which the server mints fresh IDs/secrets. -/

/-- A Consul ACL policy record as returned by `/v1/acl/policies` /
`/v1/acl/policy`. -/
structure ConsulPolicy where
  ID : String
  Name : String
  Rules : String
  deriving Repr, DecidableEq

/-- A Consul ACL token record as returned by `/v1/acl/tokens` /
`/v1/acl/token`; `Policies` holds the bound policy IDs. -/
structure ConsulToken where
  Description : String
  SecretID : String
  Policies : List String
  deriving Repr, DecidableEq

/-- The Consul server's ACL state. -/
structure ConsulState where
  policies : List ConsulPolicy
  tokens : List ConsulToken
  policyCounter : Nat
  tokenCounter : Nat
  deriving Repr, DecidableEq

/-- `ConsulManager._get_policy`: linear scan of all policies by exact name. -/
def ConsulManager.get_policy (s : ConsulState) (name : String) : Option ConsulPolicy :=
  s.policies.find? (fun p => p.Name == name)

/-- `ConsulManager._create_policy`: return the existing policy of that name
unchanged if present; otherwise create one with the given rules (the server
mints a fresh ID). -/
def ConsulManager.create_policy (s : ConsulState) (name rules : String) :
    ConsulPolicy × ConsulState :=
  match ConsulManager.get_policy s name with
  | some existing_policy => (existing_policy, s)
  | none =>
      let created : ConsulPolicy :=
        { ID := "consul-policy-id-" ++ toString s.policyCounter
          Name := name, Rules := rules }
      (created, { s with policies := s.policies ++ [created],
                         policyCounter := s.policyCounter + 1 })

/-- `ConsulManager._get_tokens`: all tokens. -/
def ConsulManager.get_tokens (s : ConsulState) : List ConsulToken := s.tokens

/-- `ConsulManager._token_exists`: linear scan by exact description. -/
def ConsulManager.token_exists (s : ConsulState) (description : String) :
    Option ConsulToken :=
  (ConsulManager.get_tokens s).find? (fun t => t.Description == description)

/-- `ConsulManager._create_token`: return the existing token of that
description unchanged if present; otherwise create one bound to the given
policy IDs (the server mints a fresh SecretID). -/
def ConsulManager.create_token (s : ConsulState) (policies : List String)
    (description : String) : ConsulToken × ConsulState :=
  match ConsulManager.token_exists s description with
  | some existing_token => (existing_token, s)
  | none =>
      let created : ConsulToken :=
        { Description := description
          SecretID := "consul-secret-id-" ++ toString s.tokenCounter
          Policies := policies }
      (created, { s with tokens := s.tokens ++ [created],
                         tokenCounter := s.tokenCounter + 1 })

/-- `ConsulManager.generate_consul_secret`: upsert the group-named policy
with a write-scoped `key_prefix` rule, upsert the group-described token
bound to it, and render the Kubernetes Secret manifest around the token's
SecretID. -/
def ConsulManager.generate_consul_secret (s : ConsulState)
    (group_name nspace : String) : DVal × ConsulState :=
  let policy_name := group_name
  let policy_rules :=
    "key_prefix \"" ++ policy_name ++ "/\" \x7b policy = \"write\" \x7d"
  let (policy_response, s1) := ConsulManager.create_policy s policy_name policy_rules
  let policy_id := policy_response.ID
  let token_description := group_name
  let (token_response, s2) := ConsulManager.create_token s1 [policy_id] token_description
  let token_secret := token_response.SecretID
  let secret_yaml := TemplateGenerator.generate_consul_k8s_secret group_name nspace token_secret
  (secret_yaml, s2)

/-! ### VaultManager (`core/integration/vault_integration.py`)

The Vault server is modelled by `VaultState`: ACL policies of the `sys`
backend, AppRole roles, a KV-v1 store, counters minting fresh role/secret
ids, and an injectable non-`InvalidPath` lookup failure (`readFault`) with
which the role-lookup transport can be made to fail. -/

/-- Errors distinguished by the client code: `hvac.exceptions.InvalidPath`
versus any other exception. -/
inductive VaultErr where
  | invalidPath
  | otherFailure (msg : String)
  deriving Repr, DecidableEq

/-- An AppRole role record. -/
structure RoleRec where
  role_id : String
  token_policies : List String
  deriving Repr, DecidableEq

/-- The Vault server state. -/
structure VaultState where
  policies : List (String × String)
  roles : List (String × RoleRec)
  roleCounter : Nat
  secretCounter : Nat
  kv : String → String → Option (String → Option String)
  readFault : Option String

/-- `client.sys.create_or_update_policy`: the backend stores the rule body
under the name unconditionally, overwriting any previous body. -/
def vaultUpsertPolicy (ps : List (String × String)) (name policy : String) :
    List (String × String) :=
  if ps.any (fun p => p.1 == name) then
    ps.map (fun p => if p.1 == name then (name, policy) else p)
  else ps ++ [(name, policy)]

/-- `VaultManager._create_policy`: create or update the policy (errors are
caught and printed; the upsert itself cannot fail in this model). -/
def VaultManager.create_policy (s : VaultState) (policy_name policy_rules : String) :
    VaultState :=
  { s with policies := vaultUpsertPolicy s.policies policy_name policy_rules }

/-- `client.auth.approle.read_role_id`: a missing role is an `InvalidPath`
signal; an injected transport fault is any other exception. -/
def vaultReadRoleId (s : VaultState) (role_name : String) : Except VaultErr String :=
  match s.readFault with
  | some m => .error (.otherFailure m)
  | none =>
      match s.roles.find? (fun r => r.1 == role_name) with
      | some r => .ok r.2.role_id
      | none => .error .invalidPath

/-- `client.auth.approle.create_or_update_approle`: create the role with a
fresh server-minted role id, or update the policy list of an existing role
keeping its id. -/
def vaultUpsertApprole (s : VaultState) (role_name : String)
    (token_policies : List String) : VaultState :=
  match s.roles.find? (fun r => r.1 == role_name) with
  | some r =>
      { s with roles := s.roles.map (fun q =>
          if q.1 == role_name then (role_name, { r.2 with token_policies }) else q) }
  | none =>
      { s with
        roles := s.roles ++
          [(role_name, { role_id := "vault-role-id-" ++ toString s.roleCounter,
                         token_policies })]
        roleCounter := s.roleCounter + 1 }

/-- `VaultManager._create_or_get_role_id`: read the role id; only the
`InvalidPath` signal is caught, in which case the role is created bound to
the given policy and its id re-read; any other failure propagates. -/
def VaultManager.create_or_get_role_id (s : VaultState)
    (role_name policy_name : String) : Except VaultErr (String × VaultState) :=
  match vaultReadRoleId s role_name with
  | .ok role_id => .ok (role_id, s)
  | .error .invalidPath =>
      let s1 := vaultUpsertApprole s role_name [policy_name]
      (vaultReadRoleId s1 role_name).map (fun role_id => (role_id, s1))
  | .error e => .error e

/-- `client.auth.approle.generate_secret_id`: the backend mints a fresh
one-time secret id. -/
def vaultGenerateSecretId (s : VaultState) (_role_name : String) :
    String × VaultState :=
  ("vault-secret-id-" ++ toString s.secretCounter,
   { s with secretCounter := s.secretCounter + 1 })

/-- `VaultManager._generate_secret_id_and_login`: generate a secret id for
the role, log in with (role id, secret id) for a client token. -/
def VaultManager.generate_secret_id_and_login (s : VaultState)
    (role_name role_id : String) : (String × String) × VaultState :=
  let (secret_id, s1) := vaultGenerateSecretId s role_name
  let client_token := "vault-client-token-" ++ role_id ++ "-" ++ secret_id
  ((secret_id, client_token), s1)

/-- `VaultManager.generate_vault_secret`: upsert the policy, get or create
the role, issue a secret id, base64-encode both ids and render the
Kubernetes Secret manifest (which base64-encodes its arguments again). -/
def VaultManager.generate_vault_secret (s : VaultState)
    (group_name environment_name nspace : String) :
    Except VaultErr (DVal × VaultState) :=
  let policy_name := group_name ++ "_" ++ environment_name ++ "_policy"
  let policy_rules := TemplateGenerator.generate_vault_policy_json group_name environment_name
  let s1 := VaultManager.create_policy s policy_name policy_rules
  let role_name := group_name ++ "_" ++ environment_name ++ "_role"
  (VaultManager.create_or_get_role_id s1 role_name policy_name).map
    (fun (role_id, s2) =>
      let ((secret_id, _client_token), s3) :=
        VaultManager.generate_secret_id_and_login s2 role_name role_id
      let encoded_role_id := b64encode role_id
      let encoded_secret_id := b64encode secret_id
      let secret_yaml :=
        TemplateGenerator.generate_vault_k8s_secret group_name nspace
          encoded_role_id encoded_secret_id
      (secret_yaml, s3))

/-- The key-value map at a path, or the empty map when the path is absent
(the `InvalidPath` branch of `write_secret_to_vault`). -/
def vaultExistingData (s : VaultState) (mount_point secret_path : String) :
    String → Option String :=
  match s.kv mount_point secret_path with
  | some data => data
  | none => fun _ => none

/-- `VaultManager.write_secret_to_vault`: read the existing map at the path
(`InvalidPath` ⇒ empty map), merge `{secret_key: secret_value}` into it and
write the whole map back (`{**existing_data, secret_key: secret_value}`). -/
def VaultManager.write_secret_to_vault (s : VaultState)
    (mount_point secret_path secret_key secret_value : String) : VaultState :=
  let existing_data := vaultExistingData s mount_point secret_path
  let updated_data : String → Option String :=
    fun k => if k = secret_key then some secret_value else existing_data k
  { s with kv := fun m p =>
      if m = mount_point ∧ p = secret_path then some updated_data else s.kv m p }

/-! ### GitlabProjectManager (`core/operation/project_manager.py`)

The GitLab server is modelled by `GitlabState`; `gitlab` constants:
`REPORTER_ACCESS = 20`, `DEVELOPER_ACCESS = 30`, `MAINTAINER_ACCESS = 40`.
`sys.exit` (imported as `exit`) raises `SystemExit`, terminating the whole
process; the outcome type records it. -/

/-- `REPORTER_ACCESS` from the `gitlab` package. -/
def REPORTER_ACCESS : Nat := 20

/-- `DEVELOPER_ACCESS` from the `gitlab` package. -/
def DEVELOPER_ACCESS : Nat := 30

/-- `MAINTAINER_ACCESS` from the `gitlab` package. -/
def MAINTAINER_ACCESS : Nat := 40

/-- A GitLab group/subgroup record. -/
structure GroupRec where
  gid : Nat
  path : String
  parent : Nat
  deriving Repr, DecidableEq

/-- A GitLab project record. `refs` are the existing branch refs (a project
created with `initialize_with_readme: False` starts with none);
`protectedBranches` are protection rules `(name, merge_access, push_access)`;
`members` are `(user_id, access_level)` bindings. -/
structure ProjectRec where
  pid : Nat
  name : String
  namespace_id : Option Nat
  refs : List String
  protectedBranches : List (String × Nat × Nat)
  members : List (Nat × Nat)
  deriving Repr, DecidableEq

/-- The GitLab server state; `users` maps usernames to user ids. -/
structure GitlabState where
  groups : List GroupRec
  projects : List ProjectRec
  users : List (String × Nat)
  idCounter : Nat
  deriving Repr, DecidableEq

/-- The configuration the project-manager methods read from
`GitlabEnvConf` (environment-derived fields). -/
structure GitlabEnvConf where
  CI_SUBGROUP_NAME : String
  CI_PROJECT_NAME : String
  CI_PROJECT_MODE : Option String
  CI_PROJECT_MM_MODULE_NAME : Option String
  CI_ACCESS_MAINTAINER : Option String
  CI_ACCESS_DEVELOPER : Option String
  deriving Repr, DecidableEq

/-- `GitlabEnvConf.branches`, a class constant. -/
def GitlabEnvConf.branches : List String := ["develop", "master"]

/-- `GitlabEnvConf.CI_CODE_GROUP_ID`, a class constant. -/
def GitlabEnvConf.CI_CODE_GROUP_ID : Nat := 453

/-- `GitlabEnvConf.CI_CHART_GROUP_ID`, a class constant. -/
def GitlabEnvConf.CI_CHART_GROUP_ID : Nat := 452

/-- `gl.groups.create`: fails with `GitlabCreateError` containing
"has already been taken" when a group with that path already exists under
the parent; otherwise creates it with a fresh id. -/
def gitlabGroupsCreate (s : GitlabState) (path : String) (parent_id : Nat) :
    Except String (Nat × GitlabState) :=
  if (s.groups.find? (fun g => g.parent == parent_id && g.path == path)).isSome then
    .error "Failed to save group \x7b:path=>[\"has already been taken\"]\x7d"
  else
    .ok (s.idCounter,
      { s with groups := s.groups ++ [{ gid := s.idCounter, path, parent := parent_id }]
               idCounter := s.idCounter + 1 })

/-- `GitlabProjectManager._create_subgroup`: create the subgroup named
`CI_SUBGROUP_NAME` under the parent group; on a "has already been taken"
creation error, search the parent's subgroups for it and return its id.
Returns the id (if any), the new state and the printed log. -/
def GitlabProjectManager.create_subgroup (s : GitlabState) (conf : GitlabEnvConf)
    (group_id : Nat) : Option Nat × GitlabState × List String :=
  match gitlabGroupsCreate s conf.CI_SUBGROUP_NAME group_id with
  | .ok (gid, s1) => (some gid, s1, [])
  | .error e =>
      if strContains e "has already been taken" then
        match s.groups.find? (fun g => g.parent == group_id &&
                                       g.path == conf.CI_SUBGROUP_NAME) with
        | some sub =>
            (some sub.gid, s,
             ["Subgroup '" ++ conf.CI_SUBGROUP_NAME ++ "' already exists."])
        | none => (none, s, [])
      else
        (none, s, ["Failed to create subgroup '" ++ conf.CI_SUBGROUP_NAME ++ "': " ++ e])

/-- `gl.projects.create`: fails with a "has already been taken" error when a
project of that name already exists in the namespace; otherwise creates an
empty project (no README ⇒ no refs). -/
def gitlabProjectsCreate (s : GitlabState) (name : String)
    (namespace_id : Option Nat) : Except String (ProjectRec × GitlabState) :=
  if (s.projects.find? (fun p => p.name == name && p.namespace_id == namespace_id)).isSome then
    .error "Failed to save project \x7b:name=>[\"has already been taken\"]\x7d"
  else
    let proj : ProjectRec :=
      { pid := s.idCounter, name, namespace_id, refs := [], protectedBranches := [], members := [] }
    .ok (proj, { s with projects := s.projects ++ [proj], idCounter := s.idCounter + 1 })

/-- `project.branches.create({'branch': b, 'ref': r})`: succeeds only when
the ref exists and the branch does not; otherwise raises
`GitlabCreateError`. -/
def gitlabBranchesCreate (proj : ProjectRec) (branch ref : String) :
    Except String ProjectRec :=
  if ref ∈ proj.refs ∧ branch ∉ proj.refs then
    .ok { proj with refs := proj.refs ++ [branch] }
  else
    .error "400: invalid reference name"

/-- One username of the role-assignment loop: `gl.users.list(username=u)[0]`
raises `IndexError` when no user matches, which is caught and logged;
otherwise the user is added at `REPORTER_ACCESS`. -/
def assignOneUser (users : List (String × Nat)) (role username : String)
    (proj : ProjectRec) (log : List String) : ProjectRec × List String :=
  match users.find? (fun u => u.1 == username) with
  | some u =>
      ({ proj with members := proj.members ++ [(u.2, REPORTER_ACCESS)] },
       log ++ ["Added " ++ role ++ ": " ++ username])
  | none =>
      (proj, log ++ [username ++ " for " ++ role ++ " access is not available"])

/-- The inner `for username in users` loop for one role. -/
def assignRoleUsers (users : List (String × Nat)) (role : String) :
    List String → ProjectRec → List String → ProjectRec × List String
  | [], proj, log => (proj, log)
  | username :: rest, proj, log =>
      let (proj1, log1) := assignOneUser users role username proj log
      assignRoleUsers users role rest proj1 log1

/-- The outer `for role, users in [('maintainer', …), ('developer', …)]`
loop. -/
def assignUsersLoop (users : List (String × Nat)) :
    List (String × List String) → ProjectRec → List String → ProjectRec × List String
  | [], proj, log => (proj, log)
  | (role, names) :: rest, proj, log =>
      let (proj1, log1) := assignRoleUsers users role names proj log
      assignUsersLoop users rest proj1 log1

/-- How a workflow step ends: normally, by an early `return`, or by
`sys.exit` (a `SystemExit` that terminates the whole process). -/
inductive Outcome where
  | completed
  | returnedEarly
  | processExit (msg : String)
  deriving Repr, DecidableEq

/-- The observable result of running `create_project_code` /
`create_project_chart`: the outcome, the final server state, the printed
log, and the `(branch, ref)` pairs attempted by `branches.create`. -/
structure RunResult where
  outcome : Outcome
  state : GitlabState
  log : List String
  branchAttempts : List (String × String)
  deriving Repr, DecidableEq

/-- The protected-branch/branch-creation loop shared textually by both
project methods (`groupLabel` is "CODE" or "CHART"; the second log line of
the CHART variant has an extra colon). -/
def branchLoop (groupLabel : String) (extraColon : Bool) :
    List String → ProjectRec → List String → List (String × String) →
    ProjectRec × List String × List (String × String)
  | [], proj, log, attempts => (proj, log, attempts)
  | branch_name :: rest, proj, log, attempts =>
      let proj1 :=
        { proj with protectedBranches :=
            proj.protectedBranches ++ [(branch_name, DEVELOPER_ACCESS, MAINTAINER_ACCESS)] }
      let ref := if branch_name = "develop" then "main" else "develop"
      let attempts1 := attempts ++ [(branch_name, ref)]
      match gitlabBranchesCreate proj1 branch_name ref with
      | .ok proj2 =>
          branchLoop groupLabel extraColon rest proj2
            (log ++ ["Branch '" ++ branch_name ++ "' created from '" ++ ref ++
                     " in " ++ groupLabel ++ " group'."]) attempts1
      | .error e =>
          branchLoop groupLabel extraColon rest proj1
            (log ++ ["Creation of branch on " ++ groupLabel ++ " group" ++
                     (if extraColon then ":" else "") ++ " '" ++ branch_name ++ "': " ++ e])
            attempts1

/-- Replace a project record in the server state (the effect of the mutating
calls made through the project handle). -/
def putProject (s : GitlabState) (proj : ProjectRec) : GitlabState :=
  { s with projects := s.projects.map (fun p => if p.pid == proj.pid then proj else p) }

/-- `GitlabProjectManager.create_project_code`: create the code subgroup and
project, protect/create the two fixed branches, then assign maintainer and
developer users.  A "has already been taken" `GitlabCreateError` on project
creation runs `exit(...)` — a `SystemExit` ending the whole process. -/
def GitlabProjectManager.create_project_code (s : GitlabState)
    (conf : GitlabEnvConf) : RunResult :=
  let (code_subgroup_child_id, s0, log0) :=
    GitlabProjectManager.create_subgroup s conf GitlabEnvConf.CI_CODE_GROUP_ID
  match gitlabProjectsCreate s0 conf.CI_PROJECT_NAME code_subgroup_child_id with
  | .error e =>
      if strContains e "has already been taken" then
        { outcome := .processExit ("Project '" ++ conf.CI_PROJECT_NAME ++
            "' already exists in CODE group. Skipping creation.")
          state := s0, log := log0, branchAttempts := [] }
      else
        -- unreachable for the modelled backend: its only creation error is
        -- the duplicate-name one
        { outcome := .returnedEarly, state := s0, log := log0, branchAttempts := [] }
  | .ok (proj, s1) =>
      let log1 := log0 ++ ["Project '" ++ conf.CI_PROJECT_NAME ++ "' created successfully."]
      let (proj2, log2, attempts) :=
        branchLoop "CODE" false GitlabEnvConf.branches proj log1 []
      let developers := convert_string_to_list conf.CI_ACCESS_DEVELOPER
      let maintainers := convert_string_to_list conf.CI_ACCESS_MAINTAINER
      let (proj3, log3) :=
        assignUsersLoop s1.users
          [("maintainer", maintainers), ("developer", developers)] proj2 log2
      { outcome := .completed, state := putProject s1 proj3, log := log3,
        branchAttempts := attempts }

/-- `GitlabProjectManager.create_project_chart`: same shape for the chart
subgroup; the project name is the multi-module name when
`CI_PROJECT_MODE == "MULTI"` and a module name is configured. -/
def GitlabProjectManager.create_project_chart (s : GitlabState)
    (conf : GitlabEnvConf) : RunResult :=
  let (chart_subgroup_child_id, s0, log0) :=
    GitlabProjectManager.create_subgroup s conf GitlabEnvConf.CI_CHART_GROUP_ID
  let module :=
    if conf.CI_PROJECT_MODE = some "MULTI" ∧ conf.CI_PROJECT_MM_MODULE_NAME ≠ none then
      pyStr conf.CI_PROJECT_MM_MODULE_NAME
    else conf.CI_PROJECT_NAME
  match gitlabProjectsCreate s0 module chart_subgroup_child_id with
  | .error e =>
      if strContains e "has already been taken" then
        { outcome := .processExit ("Project '" ++ module ++
            "' already exists in CHART group. Skipping creation.")
          state := s0, log := log0, branchAttempts := [] }
      else
        { outcome := .returnedEarly, state := s0, log := log0, branchAttempts := [] }
  | .ok (proj, s1) =>
      let log1 := log0 ++ ["Project '" ++ module ++ "' created successfully."]
      let (proj2, log2, attempts) :=
        branchLoop "CHART" true GitlabEnvConf.branches proj log1 []
      let developers := convert_string_to_list conf.CI_ACCESS_DEVELOPER
      let maintainers := convert_string_to_list conf.CI_ACCESS_MAINTAINER
      let (proj3, log3) :=
        assignUsersLoop s1.users
          [("maintainer", maintainers), ("developer", developers)] proj2 log2
      { outcome := .completed, state := putProject s1 proj3, log := log3,
        branchAttempts := attempts }

/-- Modelled from the spec: the CLI entry point driving the provisioning
workflow is not under `src/`; per the spec's control flow it runs the code
project step and then the chart project step.  Since `sys.exit` raises
`SystemExit` and no caller catches it, a `processExit` outcome of the first
step terminates the process and the second step never runs.  Returns the
two step results (the second is `none` when the process exited) . -/
def runProvisioningWorkflow (s : GitlabState) (conf : GitlabEnvConf) :
    RunResult × Option RunResult :=
  let r1 := GitlabProjectManager.create_project_code s conf
  match r1.outcome with
  | .processExit _ => (r1, none)
  | _ => (r1, some (GitlabProjectManager.create_project_chart r1.state conf))

/-! ### `GitlabProjectManager.create_global_variable` (per-branch body)

The loop body (lines 229–246) resolves two names that are never assigned
anywhere in the method: `converted_secret_key` (in the CI-variable
membership test) and `secret_value` (the value merged and written to
Vault).  Python name resolution is made explicit: the local scope is an
association list of bound locals, and referencing an unbound name raises
`NameError`.  The computed consul/vault/regcred blobs are threaded as
opaque strings since the failure occurs before any of them is used. -/

/-- A (name, value) local-variable scope; values are the rendered string
blobs (dicts are irrelevant here since the failing names are consumed as
opaque values). -/
def Locals := List (String × String)

/-- Python local-name lookup. -/
def lookupLocal (env : Locals) (name : String) : Option String :=
  (List.find? (fun p => p.1 == name) env).map (fun p => p.2)

/-- Bind a local. -/
def setLocal (env : Locals) (name v : String) : Locals :=
  (name, v) :: env

/-- A `write_secret_to_vault` call: mount point, path, key, value. -/
structure VaultWriteCall where
  mount_point : String
  secret_path : String
  secret_key : String
  secret_value : String
  deriving Repr, DecidableEq

/-- The per-branch body of `create_global_variable`.  `env0` is the local
scope at the top of the iteration (after the three `None` initialisations
and the two manager constructions); `existing_variables` are the CI
variable keys; `branch`/`namespace` and the three generated blobs are the
values the body would compute.  Returns the name whose resolution raised
`NameError` (if any) and the Vault writes performed. -/
def create_global_variable_step (env0 : Locals) (existing_variables : List String)
    (branch nspace consul_blob vault_blob regcred_blob : String) :
    Option String × List VaultWriteCall :=
  -- `if converted_secret_key not in existing_variables:` — resolve the name
  match lookupLocal env0 "converted_secret_key" with
  | none => (some "converted_secret_key", [])
  | some converted_secret_key =>
      if converted_secret_key ∈ existing_variables then
        (none, [])
      else
        let env1 := setLocal env0 "consul_secret_value" consul_blob
        let env2 :=
          if branch ∈ ["dev", "devdmz"] ∨ branch ∈ ["prod", "proddmz", "procdnz"] then
            setLocal env1 "vault_secret_value" vault_blob
          else env1
        let env3 := setLocal env2 "regcred_secret_value" regcred_blob
        -- `secret_value=secret_value` — resolve the name
        match lookupLocal env3 "secret_value" with
        | none => (some "secret_value", [])
        | some v =>
            (none, [{ mount_point := "devops_kv"
                      secret_path := branch ++ "/kubernetes/namespace"
                      secret_key := convert_key_format nspace
                      secret_value := v }])

/-- The locals actually bound when the membership test runs (source lines
223–235): the method-level bindings and the loop-body initialisations.
Neither `converted_secret_key` nor `secret_value` is among them. -/
def cgvInitialLocals (branch : String) : Locals :=
  [("project_name_devops_provisioning", "devops/devops-project-provisioning"),
   ("devops_project_provisioning", "<project>"),
   ("existing_variables", "<dict>"),
   ("branch", branch),
   ("vault_secret_value", "None"),
   ("consul_secret_value", "None"),
   ("regcred_secret_value", "None"),
   ("vault_manager", "<VaultManager>"),
   ("consul_manager", "<ConsulManager>")]

/-! ### Concrete states used by the claim instances -/

/-- An empty Vault server. -/
def vaultState0 : VaultState :=
  { policies := [], roles := [], roleCounter := 0, secretCounter := 0,
    kv := fun _ _ => none, readFault := none }

/-- An empty Consul server. -/
def consulState0 : ConsulState :=
  { policies := [], tokens := [], policyCounter := 0, tokenCounter := 0 }

/-- A Vault server whose role-lookup transport fails with a non-InvalidPath
error. -/
def faultedVaultState : VaultState :=
  { vaultState0 with readFault := some "503 backend unavailable" }

/-- The server state after `_create_or_get_role_id` creates a missing role:
the role is appended with a freshly minted id and the counter advances. -/
def vaultWithNewRole (s : VaultState) (role policy : String) : VaultState :=
  { s with
    roles := s.roles ++
      [(role, { role_id := "vault-role-id-" ++ toString s.roleCounter,
                token_policies := [policy] })]
    roleCounter := s.roleCounter + 1 }

/-- Configuration for the duplicate-project scenario. -/
def gitlabConf3 : GitlabEnvConf :=
  { CI_SUBGROUP_NAME := "team", CI_PROJECT_NAME := "app", CI_PROJECT_MODE := none,
    CI_PROJECT_MM_MODULE_NAME := none, CI_ACCESS_MAINTAINER := some "alice",
    CI_ACCESS_DEVELOPER := none }

/-- A GitLab server where subgroup `team` exists under the code group and
already contains a project named `app`. -/
def gitlabState3 : GitlabState :=
  { groups := [{ gid := 100, path := "team", parent := 453 }],
    projects := [{ pid := 200, name := "app", namespace_id := some 100, refs := [],
                   protectedBranches := [], members := [] }],
    users := [("alice", 1)], idCounter := 300 }

/-- A fresh GitLab server (no groups or projects). -/
def gitlabState4 : GitlabState :=
  { groups := [], projects := [], users := [("alice", 1)], idCounter := 1 }

/-- Configuration for the fresh-project scenario. -/
def gitlabConf4 : GitlabEnvConf :=
  { CI_SUBGROUP_NAME := "team", CI_PROJECT_NAME := "app", CI_PROJECT_MODE := none,
    CI_PROJECT_MM_MODULE_NAME := none, CI_ACCESS_MAINTAINER := some "alice",
    CI_ACCESS_DEVELOPER := none }

/-- A Vault server whose stored AppRole `g_dev_role` has the empty string as
its role id. -/
def vaultState10 : VaultState :=
  { policies := [],
    roles := [("g_dev_role", { role_id := "", token_policies := ["g_dev_policy"] })],
    roleCounter := 0, secretCounter := 0, kv := fun _ _ => none, readFault := none }

/-! ### Supporting lemmas -/

/-- UTF-8 encodes every character to at least one byte. -/
theorem utf8EncodeChar_length_pos (c : Char) : 0 < (utf8EncodeChar c).length := by
  by_cases h1 : c.toNat < 128 <;> by_cases h2 : c.toNat < 2048 <;>
    by_cases h3 : c.toNat < 65536 <;> simp [utf8EncodeChar, h1, h2, h3]

/-- A string has at least as many UTF-8 bytes as characters. -/
theorem strBytes_length_ge (s : String) : s.length ≤ (strBytes s).length := by
  show s.data.length ≤ (s.data.flatMap utf8EncodeChar).length
  induction s.data with
  | nil => simp
  | cons c cs ih =>
      have hc := utf8EncodeChar_length_pos c
      simp only [List.flatMap_cons, List.length_append, List.length_cons]
      omega

/-- Length of the base64 encoding of a byte list. -/
theorem b64encodeBytes_length (bs : List Nat) :
    (b64encodeBytes bs).length = 4 * ((bs.length + 2) / 3) := by
  match bs with
  | [] => simp [b64encodeBytes]
  | [b1] => simp [b64encodeBytes]
  | [b1, b2] => simp [b64encodeBytes]
  | b1 :: b2 :: b3 :: rest =>
      have ih := b64encodeBytes_length rest
      simp only [b64encodeBytes, String.length_append, String.length_mk,
                 List.length_cons, List.length_nil]
      omega

/-- base64-encoding a nonempty string strictly lengthens it, so the encoding
never equals its input. -/
theorem b64encode_ne_self (s : String) (h : s ≠ "") : b64encode s ≠ s := by
  intro heq
  have hlen : (b64encode s).length = s.length := congrArg String.length heq
  have h1 : 0 < s.length := by
    cases hs : s.data with
    | nil => exact absurd (by cases s; simp_all) h
    | cons c cs => show 0 < s.data.length; simp [hs]
  have h2 := strBytes_length_ge s
  have h3 : (b64encode s).length = 4 * (((strBytes s).length + 2) / 3) :=
    b64encodeBytes_length (strBytes s)
  omega

/-- One membership step never loses log entries. -/
theorem assignOneUser_log_mono (users : List (String × Nat)) (role u : String)
    (proj : ProjectRec) (log : List String) (m : String) (h : m ∈ log) :
    m ∈ (assignOneUser users role u proj log).2 := by
  unfold assignOneUser
  cases users.find? (fun x => x.1 == u) <;> simp [h]

/-- The inner membership loop never loses log entries. -/
theorem assignRoleUsers_log_mono (users : List (String × Nat)) (role : String)
    (names : List String) :
    ∀ (proj : ProjectRec) (log : List String) (m : String), m ∈ log →
      m ∈ (assignRoleUsers users role names proj log).2 := by
  induction names with
  | nil => intro proj log m h; exact h
  | cons u rest ih =>
      intro proj log m h
      show m ∈ (assignRoleUsers users role rest
        (assignOneUser users role u proj log).1 (assignOneUser users role u proj log).2).2
      exact ih _ _ _ (assignOneUser_log_mono users role u proj log m h)

/-- The outer membership loop never loses log entries. -/
theorem assignUsersLoop_log_mono (users : List (String × Nat)) :
    ∀ (roleUsers : List (String × List String)) (proj : ProjectRec)
      (log : List String) (m : String), m ∈ log →
      m ∈ (assignUsersLoop users roleUsers proj log).2 := by
  intro roleUsers
  induction roleUsers with
  | nil => intro proj log m h; exact h
  | cons ru rest ih =>
      intro proj log m h
      show m ∈ (assignUsersLoop users rest
        (assignRoleUsers users ru.1 ru.2 proj log).1
        (assignRoleUsers users ru.1 ru.2 proj log).2).2
      exact ih _ _ _ (assignRoleUsers_log_mono users ru.1 ru.2 proj log m h)

/-- The project record produced by one membership step does not depend on
the log accumulator. -/
theorem assignOneUser_proj_log_indep (users : List (String × Nat)) (role u : String)
    (proj : ProjectRec) (log log' : List String) :
    (assignOneUser users role u proj log).1 = (assignOneUser users role u proj log').1 := by
  unfold assignOneUser
  cases users.find? (fun x => x.1 == u) <;> rfl

/-- The project record produced by the inner membership loop does not depend
on the log accumulator. -/
theorem assignRoleUsers_proj_log_indep (users : List (String × Nat)) (role : String)
    (names : List String) :
    ∀ (proj : ProjectRec) (log log' : List String),
      (assignRoleUsers users role names proj log).1 =
        (assignRoleUsers users role names proj log').1 := by
  induction names with
  | nil => intro proj log log'; rfl
  | cons u rest ih =>
      intro proj log log'
      show (assignRoleUsers users role rest
        (assignOneUser users role u proj log).1 (assignOneUser users role u proj log).2).1 = _
      rw [assignOneUser_proj_log_indep users role u proj log log']
      exact ih _ _ _

/-- The project record produced by the outer membership loop does not depend
on the log accumulator. -/
theorem assignUsersLoop_proj_log_indep (users : List (String × Nat)) :
    ∀ (roleUsers : List (String × List String)) (proj : ProjectRec)
      (log log' : List String),
      (assignUsersLoop users roleUsers proj log).1 =
        (assignUsersLoop users roleUsers proj log').1 := by
  intro roleUsers
  induction roleUsers with
  | nil => intro proj log log'; rfl
  | cons ru rest ih =>
      intro proj log log'
      show (assignUsersLoop users rest
        (assignRoleUsers users ru.1 ru.2 proj log).1
        (assignRoleUsers users ru.1 ru.2 proj log).2).1 = _
      rw [assignRoleUsers_proj_log_indep users ru.1 ru.2 proj log log']
      exact ih _ _ _

/-- Processing an appended name list processes the pieces in order. -/
theorem assignRoleUsers_append (users : List (String × Nat)) (role : String)
    (xs ys : List String) :
    ∀ (proj : ProjectRec) (log : List String),
      assignRoleUsers users role (xs ++ ys) proj log =
        assignRoleUsers users role ys
          (assignRoleUsers users role xs proj log).1
          (assignRoleUsers users role xs proj log).2 := by
  induction xs with
  | nil => intro proj log; rfl
  | cons u rest ih =>
      intro proj log
      show assignRoleUsers users role (rest ++ ys)
        (assignOneUser users role u proj log).1 (assignOneUser users role u proj log).2 = _
      rw [ih]
      rfl

/-- The kv map stored by `write_secret_to_vault` at the written path. -/
theorem write_kv_at (s : VaultState) (mp p k v : String) :
    (VaultManager.write_secret_to_vault s mp p k v).kv mp p =
      some (fun x => if x = k then some v else vaultExistingData s mp p x) := by
  unfold VaultManager.write_secret_to_vault
  simp

/-! ### Claims -/

/-- C2: in `create_global_variable`, for every environment branch the
CI-variable step references the never-assigned local
`converted_secret_key` in its key-absence test, so the step raises
`NameError` there and never writes the vault/consul/regcred values to the
secrets store; and even with the key test resolved (binding
`converted_secret_key` to a key absent from the CI variables), the
merge-and-write still references the never-assigned `secret_value` and
dies without writing. -/
theorem claim_C2 :
    (∀ (branch nspace consul_blob vault_blob regcred_blob : String)
       (existing_variables : List String),
       create_global_variable_step (cgvInitialLocals branch) existing_variables
         branch nspace consul_blob vault_blob regcred_blob
         = (some "converted_secret_key", [])) ∧
    (∀ (branch nspace consul_blob vault_blob regcred_blob k : String)
       (existing_variables : List String),
       k ∉ existing_variables →
       create_global_variable_step
         (setLocal (cgvInitialLocals branch) "converted_secret_key" k)
         existing_variables branch nspace consul_blob vault_blob regcred_blob
         = (some "secret_value", [])) := by
  constructor
  · intro branch nspace cb vb rb ev
    rfl
  · intro branch nspace cb vb rb k ev hk
    show (if k ∈ ev then ((none : Option String), ([] : List VaultWriteCall))
          else _) = (some "secret_value", [])
    rw [if_neg hk]
    by_cases hb : branch ∈ ["dev", "devdmz"] ∨ branch ∈ ["prod", "proddmz", "procdnz"]
    · simp only [create_global_variable_step, setLocal, if_pos hb]
      rfl
    · simp only [create_global_variable_step, setLocal, if_neg hb]
      rfl

/-- C2 witness: with branch `dev`, namespace `team-ns` and no pre-existing
CI variables, the step raises `NameError` on `converted_secret_key` (and,
counterfactually bound, on `secret_value`) with no Vault write. -/
theorem claim_C2_witness :
    create_global_variable_step (cgvInitialLocals "dev") [] "dev" "team-ns" "c" "v" "r"
      = (some "converted_secret_key", []) ∧
    create_global_variable_step
      (setLocal (cgvInitialLocals "dev") "converted_secret_key" "team_ns")
      [] "dev" "team-ns" "c" "v" "r" = (some "secret_value", []) :=
  ⟨claim_C2.1 "dev" "team-ns" "c" "v" "r" [],
   claim_C2.2 "dev" "team-ns" "c" "v" "r" "team_ns" [] (by simp)⟩

/-- C5: `write_secret_to_vault` is read-merge-write: the path ends up
holding the existing map (empty when the read signalled path-not-found)
with the key bound to the new value and all other keys unchanged; hence
writing two distinct keys keeps both, and writing one key twice keeps only
the latest value. -/
theorem claim_C5 :
    ∀ (s : VaultState) (mp p : String),
      (∀ k v, ∃ d,
        (VaultManager.write_secret_to_vault s mp p k v).kv mp p = some d ∧
        d k = some v ∧
        (∀ k', k' ≠ k → d k' = vaultExistingData s mp p k')) ∧
      (s.kv mp p = none → vaultExistingData s mp p = fun _ => none) ∧
      (∀ a va b vb, a ≠ b → ∃ d,
        (VaultManager.write_secret_to_vault
          (VaultManager.write_secret_to_vault s mp p a va) mp p b vb).kv mp p = some d ∧
        d a = some va ∧ d b = some vb) ∧
      (∀ a v1 v2, ∃ d,
        (VaultManager.write_secret_to_vault
          (VaultManager.write_secret_to_vault s mp p a v1) mp p a v2).kv mp p = some d ∧
        d a = some v2) := by
  intro s mp p
  have hex : ∀ a va,
      vaultExistingData (VaultManager.write_secret_to_vault s mp p a va) mp p =
        fun x => if x = a then some va else vaultExistingData s mp p x := by
    intro a va
    unfold vaultExistingData
    rw [write_kv_at]
    rfl
  refine ⟨?_, ?_, ?_, ?_⟩
  · intro k v
    refine ⟨_, write_kv_at s mp p k v, by simp, ?_⟩
    intro k' h
    simp [h]
  · intro h
    unfold vaultExistingData
    rw [h]
  · intro a va b vb hab
    refine ⟨_, write_kv_at _ mp p b vb, ?_, by simp⟩
    rw [hex a va]
    simp [hab]
  · intro a v1 v2
    refine ⟨_, write_kv_at _ mp p a v2, ?_⟩
    simp

/-- C5 witness: concrete double write of distinct keys on the empty server
keeps both bindings. -/
theorem claim_C5_witness :
    ("A" : String) ≠ "B" ∧
    ∃ d, (VaultManager.write_secret_to_vault
           (VaultManager.write_secret_to_vault vaultState0 "devops_kv" "dev/x" "A" "1")
           "devops_kv" "dev/x" "B" "2").kv "devops_kv" "dev/x" = some d ∧
         d "A" = some "1" ∧ d "B" = some "2" :=
  ⟨by decide,
   (claim_C5 vaultState0 "devops_kv" "dev/x").2.2.1 "A" "1" "B" "2" (by decide)⟩

/-- C9: every TemplateGenerator rendering function is deterministic and
effect-free: in state-passing form its output document is independent of
the ambient world and the world (network/filesystem transcripts) is
returned unchanged, for all arguments. -/
theorem claim_C9 :
    (∀ a b w w', (TemplateGenerator.generate_argocd_app_project_yaml_eff a b w).1 =
        (TemplateGenerator.generate_argocd_app_project_yaml_eff a b w').1 ∧
      (TemplateGenerator.generate_argocd_app_project_yaml_eff a b w).2 = w) ∧
    (∀ a b c d e f g h w w',
      (TemplateGenerator.generate_argocd_application_yaml_eff a b c d e f g h w).1 =
        (TemplateGenerator.generate_argocd_application_yaml_eff a b c d e f g h w').1 ∧
      (TemplateGenerator.generate_argocd_application_yaml_eff a b c d e f g h w).2 = w) ∧
    (∀ a w w', (TemplateGenerator.generate_k8s_namespace_yaml_eff a w).1 =
        (TemplateGenerator.generate_k8s_namespace_yaml_eff a w').1 ∧
      (TemplateGenerator.generate_k8s_namespace_yaml_eff a w).2 = w) ∧
    (∀ conf w w', (TemplateGenerator.generate_gitlab_ci_yaml_eff conf w).1 =
        (TemplateGenerator.generate_gitlab_ci_yaml_eff conf w').1 ∧
      (TemplateGenerator.generate_gitlab_ci_yaml_eff conf w).2 = w) ∧
    (∀ a b c d w w', (TemplateGenerator.generate_k8s_regcred_eff a b c d w).1 =
        (TemplateGenerator.generate_k8s_regcred_eff a b c d w').1 ∧
      (TemplateGenerator.generate_k8s_regcred_eff a b c d w).2 = w) ∧
    (∀ a b c w w', (TemplateGenerator.generate_consul_k8s_secret_eff a b c w).1 =
        (TemplateGenerator.generate_consul_k8s_secret_eff a b c w').1 ∧
      (TemplateGenerator.generate_consul_k8s_secret_eff a b c w).2 = w) ∧
    (∀ a b c d w w', (TemplateGenerator.generate_vault_k8s_secret_eff a b c d w).1 =
        (TemplateGenerator.generate_vault_k8s_secret_eff a b c d w').1 ∧
      (TemplateGenerator.generate_vault_k8s_secret_eff a b c d w).2 = w) ∧
    (∀ a b w w', (TemplateGenerator.generate_vault_policy_json_eff a b w).1 =
        (TemplateGenerator.generate_vault_policy_json_eff a b w').1 ∧
      (TemplateGenerator.generate_vault_policy_json_eff a b w).2 = w) :=
  ⟨fun _ _ _ _ => ⟨rfl, rfl⟩,
   fun _ _ _ _ _ _ _ _ _ _ => ⟨rfl, rfl⟩,
   fun _ _ _ => ⟨rfl, rfl⟩,
   fun _ _ _ => ⟨rfl, rfl⟩,
   fun _ _ _ _ _ _ => ⟨rfl, rfl⟩,
   fun _ _ _ _ _ => ⟨rfl, rfl⟩,
   fun _ _ _ _ _ _ => ⟨rfl, rfl⟩,
   fun _ _ _ _ => ⟨rfl, rfl⟩⟩

/-- Upserting a name absent from the Vault policy list appends it. -/
theorem vaultUpsertPolicy_new (ps : List (String × String)) (name b : String)
    (h : ps.filter (fun q => q.1 == name) = []) :
    vaultUpsertPolicy ps name b = ps ++ [(name, b)] := by
  unfold vaultUpsertPolicy
  have hany : ps.any (fun q => q.1 == name) = false := by
    rw [List.any_eq_false]
    intro x hx
    simpa using List.filter_eq_nil_iff.mp h x hx
  rw [hany]
  simp

/-- Upserting the same name again overwrites the stored body in place. -/
theorem vaultUpsertPolicy_overwrite (ps : List (String × String)) (name b1 b2 : String)
    (h : ps.filter (fun q => q.1 == name) = []) :
    vaultUpsertPolicy (ps ++ [(name, b1)]) name b2 = ps ++ [(name, b2)] := by
  unfold vaultUpsertPolicy
  have hany : (ps ++ [(name, b1)]).any (fun q => q.1 == name) = true := by
    simp
  rw [hany]
  simp only [if_true]
  rw [List.map_append]
  congr 1
  · calc List.map (fun p => if (p.1 == name) = true then (name, b2) else p) ps
        = List.map (fun p => p) ps := by
          apply List.map_congr_left
          intro x hx
          have hx' : ¬(x.1 == name) = true := by
            simpa using List.filter_eq_nil_iff.mp h x hx
          simp [hx']
      _ = ps := by simp
  · simp

/-- C1 counterexample: on Backend-A (Vault) two upserts of the same policy
name leave the *second* call's body stored, not the first's: from the empty
server, upserting name `p` with `body1` then `body2` stores `body2`. -/
theorem claim_C1_counterexample :
    (VaultManager.create_policy (VaultManager.create_policy vaultState0 "p" "body1")
        "p" "body2").policies = [("p", "body2")] ∧ ("body2" : String) ≠ "body1" := by
  constructor
  · rfl
  · decide

/-- C1 (amended): calling the policy upsert twice with the same name yields
exactly one stored policy for both backends; on Backend-B (Consul) its rule
body equals the *first* call's body (the second call returns the existing
policy unchanged, state untouched), while on Backend-A (Vault)
`create_or_update_policy` overwrites unconditionally so the stored body
equals the *second* call's body. -/
theorem claim_C1_amended :
    ∀ (name b1 b2 : String) (vs : VaultState) (cs : ConsulState),
      vs.policies.filter (fun q => q.1 == name) = [] →
      cs.policies.filter (fun q => q.Name == name) = [] →
      ((VaultManager.create_policy (VaultManager.create_policy vs name b1) name b2).policies.filter
          (fun q => q.1 == name) = [(name, b2)]) ∧
      (((ConsulManager.create_policy (ConsulManager.create_policy cs name b1).2 name b2).2.policies.filter
          (fun q => q.Name == name)).map (fun q => q.Rules) = [b1]) ∧
      ((ConsulManager.create_policy (ConsulManager.create_policy cs name b1).2 name b2).2 =
          (ConsulManager.create_policy cs name b1).2) ∧
      ((ConsulManager.create_policy (ConsulManager.create_policy cs name b1).2 name b2).1 =
          (ConsulManager.create_policy cs name b1).1) := by
  intro name b1 b2 vs cs hv hc
  have h1 : (VaultManager.create_policy vs name b1).policies = vs.policies ++ [(name, b1)] :=
    vaultUpsertPolicy_new _ _ _ hv
  have h2 : (VaultManager.create_policy (VaultManager.create_policy vs name b1) name b2).policies
      = vs.policies ++ [(name, b2)] := by
    show vaultUpsertPolicy (VaultManager.create_policy vs name b1).policies name b2 = _
    rw [h1]
    exact vaultUpsertPolicy_overwrite _ _ _ _ hv
  have hcnone : ConsulManager.get_policy cs name = none := by
    unfold ConsulManager.get_policy
    rw [List.find?_eq_none]
    intro x hx
    simpa using List.filter_eq_nil_iff.mp hc x hx
  have hc1 : ConsulManager.create_policy cs name b1 =
      ({ ID := "consul-policy-id-" ++ toString cs.policyCounter, Name := name, Rules := b1 },
       { cs with
          policies := cs.policies ++
            [{ ID := "consul-policy-id-" ++ toString cs.policyCounter, Name := name, Rules := b1 }]
          policyCounter := cs.policyCounter + 1 }) := by
    unfold ConsulManager.create_policy
    rw [hcnone]
  have hfind2 : ConsulManager.get_policy (ConsulManager.create_policy cs name b1).2 name =
      some { ID := "consul-policy-id-" ++ toString cs.policyCounter, Name := name, Rules := b1 } := by
    rw [hc1]
    unfold ConsulManager.get_policy
    rw [show ({ cs with
          policies := cs.policies ++
            [{ ID := "consul-policy-id-" ++ toString cs.policyCounter, Name := name, Rules := b1 }]
          policyCounter := cs.policyCounter + 1 } : ConsulState).policies = cs.policies ++
            [{ ID := "consul-policy-id-" ++ toString cs.policyCounter, Name := name, Rules := b1 }] from rfl]
    rw [List.find?_append]
    rw [show List.find? (fun p => p.Name == name) cs.policies = none from hcnone]
    simp
  have hc2 : ConsulManager.create_policy (ConsulManager.create_policy cs name b1).2 name b2 =
      ({ ID := "consul-policy-id-" ++ toString cs.policyCounter, Name := name, Rules := b1 },
       (ConsulManager.create_policy cs name b1).2) := by
    conv_lhs => rw [ConsulManager.create_policy]
    rw [hfind2]
  have hcfilter : cs.policies.filter (fun q => q.Name == name) = [] := hc
  refine ⟨?_, ?_, ?_, ?_⟩
  · rw [h2, List.filter_append, hv]
    simp
  · rw [hc2]
    rw [show (ConsulManager.create_policy cs name b1).2.policies = cs.policies ++
          [{ ID := "consul-policy-id-" ++ toString cs.policyCounter, Name := name, Rules := b1 }] from by rw [hc1]]
    rw [List.filter_append, hcfilter]
    simp
  · rw [hc2]
  · rw [hc2, hc1]

/-- C1 witness: the amended statement at concrete inputs, from the two empty
servers. -/
theorem claim_C1_witness :
    ((VaultManager.create_policy (VaultManager.create_policy vaultState0 "p" "a") "p" "b").policies.filter
        (fun q => q.1 == "p") = [("p", "b")]) ∧
    (((ConsulManager.create_policy (ConsulManager.create_policy consulState0 "p" "a").2 "p" "b").2.policies.filter
        (fun q => q.Name == "p")).map (fun q => q.Rules) = ["a"]) ∧
    ((ConsulManager.create_policy (ConsulManager.create_policy consulState0 "p" "a").2 "p" "b").2 =
        (ConsulManager.create_policy consulState0 "p" "a").2) ∧
    ((ConsulManager.create_policy (ConsulManager.create_policy consulState0 "p" "a").2 "p" "b").1 =
        (ConsulManager.create_policy consulState0 "p" "a").1) :=
  claim_C1_amended "p" "a" "b" vaultState0 consulState0 rfl rfl

/-- When the role is absent (path-not-found) and the transport is healthy,
`_create_or_get_role_id` creates the role bound to the policy and returns
the freshly minted id together with the updated server. -/
theorem create_or_get_role_id_creates (s : VaultState) (role policy : String)
    (hf : s.readFault = none) (hnone : s.roles.find? (fun r => r.1 == role) = none) :
    VaultManager.create_or_get_role_id s role policy =
      .ok ("vault-role-id-" ++ toString s.roleCounter, vaultWithNewRole s role policy) := by
  have hread : vaultReadRoleId s role = .error .invalidPath := by
    unfold vaultReadRoleId
    rw [hf, hnone]
  have hup : vaultUpsertApprole s role [policy] = vaultWithNewRole s role policy := by
    unfold vaultUpsertApprole vaultWithNewRole
    rw [hnone]
  have hread2 : vaultReadRoleId (vaultWithNewRole s role policy) role
      = .ok ("vault-role-id-" ++ toString s.roleCounter) := by
    unfold vaultReadRoleId
    rw [show (vaultWithNewRole s role policy).readFault = none from hf]
    rw [show (vaultWithNewRole s role policy).roles = s.roles ++
          [(role, { role_id := "vault-role-id-" ++ toString s.roleCounter,
                    token_policies := [policy] })] from rfl]
    rw [List.find?_append, hnone]
    simp
  unfold VaultManager.create_or_get_role_id
  simp only [hread, hup, hread2, Except.map]

/-- When the role lookup succeeds, `_create_or_get_role_id` returns the
stored role id and leaves the server untouched. -/
theorem create_or_get_role_id_found (s : VaultState) (role policy : String)
    (hf : s.readFault = none) (x : String × RoleRec)
    (hx : s.roles.find? (fun r => r.1 == role) = some x) :
    VaultManager.create_or_get_role_id s role policy = .ok (x.2.role_id, s) := by
  have hread : vaultReadRoleId s role = .ok x.2.role_id := by
    unfold vaultReadRoleId
    rw [hf, hx]
  unfold VaultManager.create_or_get_role_id
  rw [hread]

/-- C6: `_create_or_get_role_id` is idempotent: when the role lookup raises
path-not-found it creates the role bound to the given policy and returns
its id; a second call with the same role name returns the same id with the
server state unchanged (no duplicate role); and any lookup failure other
than path-not-found propagates uncaught. -/
theorem claim_C6 :
    (∀ (s : VaultState) (role policy : String),
       s.readFault = none →
       s.roles.find? (fun r => r.1 == role) = none →
       ∃ id s2,
         VaultManager.create_or_get_role_id s role policy = .ok (id, s2) ∧
         (s2.roles.filter (fun r => r.1 == role)).map
             (fun r => (r.2.role_id, r.2.token_policies)) = [(id, [policy])] ∧
         VaultManager.create_or_get_role_id s2 role policy = .ok (id, s2)) ∧
    (∀ (s : VaultState) (role policy m : String),
       s.readFault = some m →
       VaultManager.create_or_get_role_id s role policy =
         .error (.otherFailure m)) := by
  constructor
  · intro s role policy hf hnone
    refine ⟨"vault-role-id-" ++ toString s.roleCounter, vaultWithNewRole s role policy,
      create_or_get_role_id_creates s role policy hf hnone, ?_, ?_⟩
    · show ((s.roles ++
          [(role, ({ role_id := "vault-role-id-" ++ toString s.roleCounter,
                     token_policies := [policy] } : RoleRec))]).filter
            (fun r => r.1 == role)).map (fun r => (r.2.role_id, r.2.token_policies)) = _
      have hfilter : s.roles.filter (fun r => r.1 == role) = [] := by
        rw [List.filter_eq_nil_iff]
        intro x hx
        exact List.find?_eq_none.mp hnone x hx
      rw [List.filter_append, hfilter]
      simp
    · have hfind2 : (vaultWithNewRole s role policy).roles.find?
          (fun r => r.1 == role) =
          some (role, ({ role_id := "vault-role-id-" ++ toString s.roleCounter,
                         token_policies := [policy] } : RoleRec)) := by
        show (s.roles ++
          [(role, ({ role_id := "vault-role-id-" ++ toString s.roleCounter,
                     token_policies := [policy] } : RoleRec))]).find? _ = _
        rw [List.find?_append, hnone]
        simp
      exact create_or_get_role_id_found (vaultWithNewRole s role policy) role policy hf _ hfind2
  · intro s role policy m hm
    have hread : vaultReadRoleId s role = .error (.otherFailure m) := by
      unfold vaultReadRoleId
      rw [hm]
    unfold VaultManager.create_or_get_role_id
    rw [hread]

/-- C6 witness: on the empty Vault server the role is created and the second
call returns the same id without duplicating it; on the faulted server the
non-InvalidPath error propagates. -/
theorem claim_C6_witness :
    (∃ id s2,
       VaultManager.create_or_get_role_id vaultState0 "grp_dev_role" "grp_dev_policy"
         = .ok (id, s2) ∧
       (s2.roles.filter (fun r => r.1 == "grp_dev_role")).map
           (fun r => (r.2.role_id, r.2.token_policies)) = [(id, ["grp_dev_policy"])] ∧
       VaultManager.create_or_get_role_id s2 "grp_dev_role" "grp_dev_policy"
         = .ok (id, s2)) ∧
    VaultManager.create_or_get_role_id faultedVaultState "r" "p" =
      .error (.otherFailure "503 backend unavailable") :=
  ⟨claim_C6.1 vaultState0 "grp_dev_role" "grp_dev_policy" rfl rfl,
   claim_C6.2 faultedVaultState "r" "p" "503 backend unavailable" rfl⟩

/-- C7: for group `payments` and namespace `payments-ns` on a server without
a `payments` policy or token, `generate_consul_secret` creates a policy
named `payments` with rule `key_prefix "payments/" \x7b policy = "write" \x7d`,
a token described `payments` bound to that policy's id, and returns a
Kubernetes Secret manifest named `consul-payments` of type `Opaque` whose
`data.CONSUL_TOKEN` is the base64-encoded token SecretID. -/
theorem claim_C7 :
    ∀ (s : ConsulState),
      ConsulManager.get_policy s "payments" = none →
      ConsulManager.token_exists s "payments" = none →
      ∃ (pol : ConsulPolicy) (tok : ConsulToken) (s2 : ConsulState),
        ConsulManager.generate_consul_secret s "payments" "payments-ns" =
          (TemplateGenerator.generate_consul_k8s_secret "payments" "payments-ns" tok.SecretID,
           s2) ∧
        s2.policies.filter (fun p => p.Name == "payments") = [pol] ∧
        pol.Rules = "key_prefix \"payments/\" \x7b policy = \"write\" \x7d" ∧
        s2.tokens.filter (fun t => t.Description == "payments") = [tok] ∧
        tok.Policies = [pol.ID] ∧
        ((ConsulManager.generate_consul_secret s "payments" "payments-ns").1.objGet
            "metadata").bind (fun m => m.objGet "name") = some (.str "consul-payments") ∧
        (ConsulManager.generate_consul_secret s "payments" "payments-ns").1.objGet "type"
          = some (.str "Opaque") ∧
        ((ConsulManager.generate_consul_secret s "payments" "payments-ns").1.objGet
            "data").bind (fun d => d.objGet "CONSUL_TOKEN")
          = some (.str (b64encode tok.SecretID)) := by
  intro s hpol htok
  have hrules : ("key_prefix \"" ++ "payments" ++ "/\" \x7b policy = \"write\" \x7d" : String)
      = "key_prefix \"payments/\" \x7b policy = \"write\" \x7d" := rfl
  have hcp : ConsulManager.create_policy s "payments"
        ("key_prefix \"" ++ "payments" ++ "/\" \x7b policy = \"write\" \x7d") =
      (({ ID := "consul-policy-id-" ++ toString s.policyCounter, Name := "payments",
          Rules := "key_prefix \"payments/\" \x7b policy = \"write\" \x7d" } : ConsulPolicy),
       { s with
          policies := s.policies ++
            [{ ID := "consul-policy-id-" ++ toString s.policyCounter, Name := "payments",
               Rules := "key_prefix \"payments/\" \x7b policy = \"write\" \x7d" }]
          policyCounter := s.policyCounter + 1 }) := by
    unfold ConsulManager.create_policy
    rw [hpol]
    rfl
  have htok1 : ConsulManager.token_exists
      ({ s with
          policies := s.policies ++
            [{ ID := "consul-policy-id-" ++ toString s.policyCounter, Name := "payments",
               Rules := "key_prefix \"payments/\" \x7b policy = \"write\" \x7d" }]
          policyCounter := s.policyCounter + 1 } : ConsulState) "payments" = none := htok
  have hct : ConsulManager.create_token
      ({ s with
          policies := s.policies ++
            [{ ID := "consul-policy-id-" ++ toString s.policyCounter, Name := "payments",
               Rules := "key_prefix \"payments/\" \x7b policy = \"write\" \x7d" }]
          policyCounter := s.policyCounter + 1 } : ConsulState)
      ["consul-policy-id-" ++ toString s.policyCounter] "payments" =
      (({ Description := "payments", SecretID := "consul-secret-id-" ++ toString s.tokenCounter,
          Policies := ["consul-policy-id-" ++ toString s.policyCounter] } : ConsulToken),
       { s with
          policies := s.policies ++
            [{ ID := "consul-policy-id-" ++ toString s.policyCounter, Name := "payments",
               Rules := "key_prefix \"payments/\" \x7b policy = \"write\" \x7d" }]
          policyCounter := s.policyCounter + 1
          tokens := s.tokens ++
            [{ Description := "payments",
               SecretID := "consul-secret-id-" ++ toString s.tokenCounter,
               Policies := ["consul-policy-id-" ++ toString s.policyCounter] }]
          tokenCounter := s.tokenCounter + 1 }) := by
    unfold ConsulManager.create_token
    rw [htok1]
  have hgen : ConsulManager.generate_consul_secret s "payments" "payments-ns" =
      (TemplateGenerator.generate_consul_k8s_secret "payments" "payments-ns"
         ("consul-secret-id-" ++ toString s.tokenCounter),
       { s with
          policies := s.policies ++
            [{ ID := "consul-policy-id-" ++ toString s.policyCounter, Name := "payments",
               Rules := "key_prefix \"payments/\" \x7b policy = \"write\" \x7d" }]
          policyCounter := s.policyCounter + 1
          tokens := s.tokens ++
            [{ Description := "payments",
               SecretID := "consul-secret-id-" ++ toString s.tokenCounter,
               Policies := ["consul-policy-id-" ++ toString s.policyCounter] }]
          tokenCounter := s.tokenCounter + 1 }) := by
    unfold ConsulManager.generate_consul_secret
    simp only [hcp, hct]
  have hpfilter : s.policies.filter (fun p => p.Name == "payments") = [] := by
    rw [List.filter_eq_nil_iff]
    intro x hx
    exact List.find?_eq_none.mp hpol x hx
  have htfilter : s.tokens.filter (fun t => t.Description == "payments") = [] := by
    rw [List.filter_eq_nil_iff]
    intro x hx
    exact List.find?_eq_none.mp htok x hx
  refine ⟨{ ID := "consul-policy-id-" ++ toString s.policyCounter, Name := "payments",
            Rules := "key_prefix \"payments/\" \x7b policy = \"write\" \x7d" },
          { Description := "payments",
            SecretID := "consul-secret-id-" ++ toString s.tokenCounter,
            Policies := ["consul-policy-id-" ++ toString s.policyCounter] },
          _, hgen, ?_, rfl, ?_, rfl, ?_, ?_, ?_⟩
  · show (List.filter (fun p => p.Name == "payments") (s.policies ++ _)) = _
    rw [List.filter_append, hpfilter]
    simp
  · show (List.filter (fun t => t.Description == "payments") (s.tokens ++ _)) = _
    rw [List.filter_append, htfilter]
    simp
  · rw [hgen]
    rfl
  · rw [hgen]
    rfl
  · rw [hgen]
    rfl

/-- C7 witness: the scenario on the empty Consul server. -/
theorem claim_C7_witness :
    ∃ (pol : ConsulPolicy) (tok : ConsulToken) (s2 : ConsulState),
      ConsulManager.generate_consul_secret consulState0 "payments" "payments-ns" =
        (TemplateGenerator.generate_consul_k8s_secret "payments" "payments-ns" tok.SecretID,
         s2) ∧
      s2.policies.filter (fun p => p.Name == "payments") = [pol] ∧
      pol.Rules = "key_prefix \"payments/\" \x7b policy = \"write\" \x7d" ∧
      s2.tokens.filter (fun t => t.Description == "payments") = [tok] ∧
      tok.Policies = [pol.ID] ∧
      ((ConsulManager.generate_consul_secret consulState0 "payments" "payments-ns").1.objGet
          "metadata").bind (fun m => m.objGet "name") = some (.str "consul-payments") ∧
      (ConsulManager.generate_consul_secret consulState0 "payments" "payments-ns").1.objGet
          "type" = some (.str "Opaque") ∧
      ((ConsulManager.generate_consul_secret consulState0 "payments" "payments-ns").1.objGet
          "data").bind (fun d => d.objGet "CONSUL_TOKEN")
        = some (.str (b64encode tok.SecretID)) :=
  claim_C7 consulState0 rfl rfl

/-- C8: an unresolvable username (empty `users.list` result, the
`IndexError` branch) in the maintainer or developer list is logged and
skipped: the membership loop still processes all remaining usernames and
the remaining role lists (same final project membership as without the
ghost), records the skip message, and never aborts. -/
theorem claim_C8 :
    ∀ (users : List (String × Nat)) (ghost : String),
      users.find? (fun u => u.1 == ghost) = none →
      ∀ (role : String) (xs ys : List String) (others : List (String × List String))
        (proj : ProjectRec) (log : List String),
        (assignUsersLoop users ((role, xs ++ ghost :: ys) :: others) proj log).1 =
          (assignUsersLoop users ((role, xs ++ ys) :: others) proj log).1 ∧
        (ghost ++ " for " ++ role ++ " access is not available") ∈
          (assignUsersLoop users ((role, xs ++ ghost :: ys) :: others) proj log).2 := by
  intro users ghost hghost role xs ys others proj log
  have hstep : ∀ (p : ProjectRec) (l : List String),
      assignOneUser users role ghost p l =
        (p, l ++ [ghost ++ " for " ++ role ++ " access is not available"]) := by
    intro p l
    unfold assignOneUser
    rw [hghost]
  constructor
  · show (assignUsersLoop users others
        (assignRoleUsers users role (xs ++ ghost :: ys) proj log).1
        (assignRoleUsers users role (xs ++ ghost :: ys) proj log).2).1 = _
    rw [assignUsersLoop_proj_log_indep users others
          (assignRoleUsers users role (xs ++ ghost :: ys) proj log).1
          (assignRoleUsers users role (xs ++ ghost :: ys) proj log).2
          (assignRoleUsers users role (xs ++ ys) proj log).2]
    have hproj : (assignRoleUsers users role (xs ++ ghost :: ys) proj log).1 =
        (assignRoleUsers users role (xs ++ ys) proj log).1 := by
      rw [assignRoleUsers_append users role xs (ghost :: ys),
          assignRoleUsers_append users role xs ys]
      show (assignRoleUsers users role ys
          (assignOneUser users role ghost
            (assignRoleUsers users role xs proj log).1
            (assignRoleUsers users role xs proj log).2).1
          (assignOneUser users role ghost
            (assignRoleUsers users role xs proj log).1
            (assignRoleUsers users role xs proj log).2).2).1 = _
      rw [hstep]
      exact assignRoleUsers_proj_log_indep users role ys _ _ _
    rw [hproj]
    rfl
  · show (ghost ++ " for " ++ role ++ " access is not available") ∈
      (assignUsersLoop users others
        (assignRoleUsers users role (xs ++ ghost :: ys) proj log).1
        (assignRoleUsers users role (xs ++ ghost :: ys) proj log).2).2
    apply assignUsersLoop_log_mono
    rw [assignRoleUsers_append users role xs (ghost :: ys)]
    show _ ∈ (assignRoleUsers users role ys
        (assignOneUser users role ghost
          (assignRoleUsers users role xs proj log).1
          (assignRoleUsers users role xs proj log).2).1
        (assignOneUser users role ghost
          (assignRoleUsers users role xs proj log).1
          (assignRoleUsers users role xs proj log).2).2).2
    apply assignRoleUsers_log_mono
    rw [hstep]
    simp

/-- C8 witness: user `ghost` is missing from the directory; the run with
`ghost` in the maintainer list yields the same membership as without it,
logs the skip, and the developer list is still processed. -/
theorem claim_C8_witness :
    (List.find? (fun u => u.1 == "ghost") [("alice", 1), ("bob", 2)] = none) ∧
    ((assignUsersLoop [("alice", 1), ("bob", 2)]
        [("maintainer", ["alice"] ++ "ghost" :: []), ("developer", ["bob"])]
        { pid := 0, name := "app", namespace_id := none, refs := [],
          protectedBranches := [], members := [] } []).1 =
      (assignUsersLoop [("alice", 1), ("bob", 2)]
        [("maintainer", ["alice"] ++ []), ("developer", ["bob"])]
        { pid := 0, name := "app", namespace_id := none, refs := [],
          protectedBranches := [], members := [] } []).1) ∧
    ("ghost" ++ " for " ++ "maintainer" ++ " access is not available") ∈
      (assignUsersLoop [("alice", 1), ("bob", 2)]
        [("maintainer", ["alice"] ++ "ghost" :: []), ("developer", ["bob"])]
        { pid := 0, name := "app", namespace_id := none, refs := [],
          protectedBranches := [], members := [] } []).2 :=
  ⟨rfl,
   (claim_C8 [("alice", 1), ("bob", 2)] "ghost" rfl "maintainer" ["alice"] []
      [("developer", ["bob"])]
      { pid := 0, name := "app", namespace_id := none, refs := [],
        protectedBranches := [], members := [] } []).1,
   (claim_C8 [("alice", 1), ("bob", 2)] "ghost" rfl "maintainer" ["alice"] []
      [("developer", ["bob"])]
      { pid := 0, name := "app", namespace_id := none, refs := [],
        protectedBranches := [], members := [] } []).2⟩

/-- C3 counterexample: with project `app` already taken, `create_project_code`
ends in `sys.exit` (`SystemExit`), so not only that project's remaining steps
but the entire process halts: the chart step of the workflow never runs —
contradicting "later workflow work for other projects still proceeds". -/
theorem claim_C3_counterexample :
    (GitlabProjectManager.create_project_code gitlabState3 gitlabConf3).outcome =
      .processExit "Project 'app' already exists in CODE group. Skipping creation." ∧
    (GitlabProjectManager.create_project_code gitlabState3 gitlabConf3).branchAttempts = [] ∧
    (runProvisioningWorkflow gitlabState3 gitlabConf3).2 = none := by
  refine ⟨rfl, rfl, rfl⟩

/-- C3 (amended): when project creation fails with "name already taken", the
code calls `exit(...)`: the message is emitted and the whole process
terminates — no retry, no branch/membership steps for that project, and no
later workflow work (the chart project step never runs) either. -/
theorem claim_C3_amended :
    ∀ (s : GitlabState) (conf : GitlabEnvConf),
      ((GitlabProjectManager.create_subgroup s conf
          GitlabEnvConf.CI_CODE_GROUP_ID).2.1.projects.find?
          (fun p => p.name == conf.CI_PROJECT_NAME &&
            p.namespace_id == (GitlabProjectManager.create_subgroup s conf
              GitlabEnvConf.CI_CODE_GROUP_ID).1)).isSome = true →
      (GitlabProjectManager.create_project_code s conf).outcome =
        .processExit ("Project '" ++ conf.CI_PROJECT_NAME ++
          "' already exists in CODE group. Skipping creation.") ∧
      (GitlabProjectManager.create_project_code s conf).branchAttempts = [] ∧
      (runProvisioningWorkflow s conf).2 = none := by
  intro s conf htaken
  rcases hsub : GitlabProjectManager.create_subgroup s conf GitlabEnvConf.CI_CODE_GROUP_ID
    with ⟨subId, s0, log0⟩
  rw [hsub] at htaken
  simp only at htaken
  have hdup : gitlabProjectsCreate s0 conf.CI_PROJECT_NAME subId =
      .error "Failed to save project \x7b:name=>[\"has already been taken\"]\x7d" := by
    unfold gitlabProjectsCreate
    rw [if_pos htaken]
  have hcode : GitlabProjectManager.create_project_code s conf =
      { outcome := .processExit ("Project '" ++ conf.CI_PROJECT_NAME ++
          "' already exists in CODE group. Skipping creation."),
        state := s0, log := log0, branchAttempts := [] } := by
    unfold GitlabProjectManager.create_project_code
    simp only [hsub]
    simp only [hdup]
    rw [if_pos (by decide :
      strContains "Failed to save project \x7b:name=>[\"has already been taken\"]\x7d"
        "has already been taken" = true)]
  refine ⟨by rw [hcode], by rw [hcode], ?_⟩
  unfold runProvisioningWorkflow
  rw [hcode]

/-- C3 witness: the amended statement on the concrete duplicate-project
server. -/
theorem claim_C3_witness :
    (GitlabProjectManager.create_project_code gitlabState3 gitlabConf3).outcome =
      .processExit ("Project '" ++ gitlabConf3.CI_PROJECT_NAME ++
        "' already exists in CODE group. Skipping creation.") ∧
    (GitlabProjectManager.create_project_code gitlabState3 gitlabConf3).branchAttempts = [] ∧
    (runProvisioningWorkflow gitlabState3 gitlabConf3).2 = none :=
  claim_C3_amended gitlabState3 gitlabConf3 rfl

/-- On a freshly created (empty, README-less) project the branch loop of
`create_project_code` protects both branches, attempts `develop` from ref
`main` and `master` from ref `develop`, and logs both creation failures. -/
theorem branchLoop_code_fresh (pid : Nat) (name : String) (nsid : Option Nat)
    (pb : List (String × Nat × Nat)) (mem : List (Nat × Nat)) (log : List String) :
    branchLoop "CODE" false GitlabEnvConf.branches
      { pid, name, namespace_id := nsid, refs := [], protectedBranches := pb,
        members := mem } log [] =
      ({ pid, name, namespace_id := nsid, refs := [],
         protectedBranches := (pb ++ [("develop", DEVELOPER_ACCESS, MAINTAINER_ACCESS)]) ++
           [("master", DEVELOPER_ACCESS, MAINTAINER_ACCESS)],
         members := mem },
       (log ++ ["Creation of branch on CODE group 'develop': 400: invalid reference name"]) ++
         ["Creation of branch on CODE group 'master': 400: invalid reference name"],
       [("develop", "main"), ("master", "develop")]) := rfl

/-- C4 counterexample: the two branch creations reference `main` (not the
sibling `master`) for `develop`: the attempted `(branch, ref)` pairs are
`("develop", "main")` and `("master", "develop")`, and the pair
`("develop", "master")` claimed by the spec never occurs. -/
theorem claim_C4_counterexample :
    (GitlabProjectManager.create_project_code gitlabState4 gitlabConf4).branchAttempts =
      [("develop", "main"), ("master", "develop")] ∧
    ("develop", "master") ∉
      (GitlabProjectManager.create_project_code gitlabState4 gitlabConf4).branchAttempts ∧
    ("master", "develop") ∈
      (GitlabProjectManager.create_project_code gitlabState4 gitlabConf4).branchAttempts := by
  refine ⟨rfl, by decide, by decide⟩

/-- C4 (amended): for the fixed branch list `["develop", "master"]` the
workflow creates `develop` with creation ref `main` and `master` with
creation ref `develop` (not the sibling pair claimed); a branch-creation
failure is non-fatal — the step completes and the failure is logged. -/
theorem claim_C4_amended :
    ∀ (s : GitlabState) (conf : GitlabEnvConf),
      ((GitlabProjectManager.create_subgroup s conf
          GitlabEnvConf.CI_CODE_GROUP_ID).2.1.projects.find?
          (fun p => p.name == conf.CI_PROJECT_NAME &&
            p.namespace_id == (GitlabProjectManager.create_subgroup s conf
              GitlabEnvConf.CI_CODE_GROUP_ID).1)).isSome = false →
      (GitlabProjectManager.create_project_code s conf).branchAttempts =
        [("develop", "main"), ("master", "develop")] ∧
      (GitlabProjectManager.create_project_code s conf).outcome = .completed ∧
      ("Creation of branch on CODE group 'develop': 400: invalid reference name") ∈
        (GitlabProjectManager.create_project_code s conf).log ∧
      ("Creation of branch on CODE group 'master': 400: invalid reference name") ∈
        (GitlabProjectManager.create_project_code s conf).log := by
  intro s conf hfree
  rcases hsub : GitlabProjectManager.create_subgroup s conf GitlabEnvConf.CI_CODE_GROUP_ID
    with ⟨subId, s0, log0⟩
  rw [hsub] at hfree
  simp only at hfree
  have hok : gitlabProjectsCreate s0 conf.CI_PROJECT_NAME subId =
      .ok ({ pid := s0.idCounter, name := conf.CI_PROJECT_NAME, namespace_id := subId,
             refs := [], protectedBranches := [], members := [] },
           { s0 with
              projects := s0.projects ++
                [{ pid := s0.idCounter, name := conf.CI_PROJECT_NAME, namespace_id := subId,
                   refs := [], protectedBranches := [], members := [] }]
              idCounter := s0.idCounter + 1 }) := by
    unfold gitlabProjectsCreate
    rw [if_neg (by simp [hfree])]
  have hcode : GitlabProjectManager.create_project_code s conf =
      { outcome := .completed,
        state := putProject
          ({ s0 with
              projects := s0.projects ++
                [{ pid := s0.idCounter, name := conf.CI_PROJECT_NAME, namespace_id := subId,
                   refs := [], protectedBranches := [], members := [] }]
              idCounter := s0.idCounter + 1 })
          (assignUsersLoop
            ({ s0 with
                projects := s0.projects ++
                  [{ pid := s0.idCounter, name := conf.CI_PROJECT_NAME, namespace_id := subId,
                     refs := [], protectedBranches := [], members := [] }]
                idCounter := s0.idCounter + 1 } : GitlabState).users
            [("maintainer", convert_string_to_list conf.CI_ACCESS_MAINTAINER),
             ("developer", convert_string_to_list conf.CI_ACCESS_DEVELOPER)]
            { pid := s0.idCounter, name := conf.CI_PROJECT_NAME, namespace_id := subId,
              refs := [],
              protectedBranches := ([] ++ [("develop", DEVELOPER_ACCESS, MAINTAINER_ACCESS)]) ++
                [("master", DEVELOPER_ACCESS, MAINTAINER_ACCESS)],
              members := [] }
            (((log0 ++ ["Project '" ++ conf.CI_PROJECT_NAME ++ "' created successfully."]) ++
              ["Creation of branch on CODE group 'develop': 400: invalid reference name"]) ++
              ["Creation of branch on CODE group 'master': 400: invalid reference name"])).1,
        log := (assignUsersLoop
            ({ s0 with
                projects := s0.projects ++
                  [{ pid := s0.idCounter, name := conf.CI_PROJECT_NAME, namespace_id := subId,
                     refs := [], protectedBranches := [], members := [] }]
                idCounter := s0.idCounter + 1 } : GitlabState).users
            [("maintainer", convert_string_to_list conf.CI_ACCESS_MAINTAINER),
             ("developer", convert_string_to_list conf.CI_ACCESS_DEVELOPER)]
            { pid := s0.idCounter, name := conf.CI_PROJECT_NAME, namespace_id := subId,
              refs := [],
              protectedBranches := ([] ++ [("develop", DEVELOPER_ACCESS, MAINTAINER_ACCESS)]) ++
                [("master", DEVELOPER_ACCESS, MAINTAINER_ACCESS)],
              members := [] }
            (((log0 ++ ["Project '" ++ conf.CI_PROJECT_NAME ++ "' created successfully."]) ++
              ["Creation of branch on CODE group 'develop': 400: invalid reference name"]) ++
              ["Creation of branch on CODE group 'master': 400: invalid reference name"])).2,
        branchAttempts := [("develop", "main"), ("master", "develop")] } := by
    unfold GitlabProjectManager.create_project_code
    simp only [hsub]
    simp only [hok]
    rw [branchLoop_code_fresh]
  refine ⟨by rw [hcode], by rw [hcode], ?_, ?_⟩
  · rw [hcode]
    show _ ∈ (assignUsersLoop _ _ _ _).2
    apply assignUsersLoop_log_mono
    simp
  · rw [hcode]
    show _ ∈ (assignUsersLoop _ _ _ _).2
    apply assignUsersLoop_log_mono
    simp

/-- C4 witness: the amended statement on the fresh server. -/
theorem claim_C4_witness :
    (GitlabProjectManager.create_project_code gitlabState4 gitlabConf4).branchAttempts =
      [("develop", "main"), ("master", "develop")] ∧
    (GitlabProjectManager.create_project_code gitlabState4 gitlabConf4).outcome = .completed ∧
    ("Creation of branch on CODE group 'develop': 400: invalid reference name") ∈
      (GitlabProjectManager.create_project_code gitlabState4 gitlabConf4).log ∧
    ("Creation of branch on CODE group 'master': 400: invalid reference name") ∈
      (GitlabProjectManager.create_project_code gitlabState4 gitlabConf4).log :=
  claim_C4_amended gitlabState4 gitlabConf4 rfl

/-- C10 (amended): the Secret manifest returned by `generate_vault_secret`
carries `VAULT_ROLE_ID = b64encode (b64encode role_id)` and
`VAULT_SECRET_ID = b64encode (b64encode secret_id)` — the ids are
base64-encoded twice (once in `generate_vault_secret`, once again in
`generate_vault_k8s_secret`); since base64-encoding a *nonempty* string
changes it, a single decode (which yields `b64encode id`) cannot return a
nonempty original id. -/
theorem claim_C10_amended :
    ∀ (s : VaultState) (g env ns : String),
      s.readFault = none →
      ∃ (doc : DVal) (s2 : VaultState) (role_id secret_id : String),
        VaultManager.generate_vault_secret s g env ns = .ok (doc, s2) ∧
        (s2.roles.find? (fun r => r.1 == g ++ "_" ++ env ++ "_role")).map
            (fun r => r.2.role_id) = some role_id ∧
        (doc.objGet "data").bind (fun d => d.objGet "VAULT_ROLE_ID") =
          some (.str (b64encode (b64encode role_id))) ∧
        (doc.objGet "data").bind (fun d => d.objGet "VAULT_SECRET_ID") =
          some (.str (b64encode (b64encode secret_id))) ∧
        (role_id ≠ "" → b64encode role_id ≠ role_id) ∧
        (secret_id ≠ "" → b64encode secret_id ≠ secret_id) := by
  intro s g env ns hf
  have hf1 : (VaultManager.create_policy s (g ++ "_" ++ env ++ "_policy")
      (TemplateGenerator.generate_vault_policy_json g env)).readFault = none := hf
  cases hx : (VaultManager.create_policy s (g ++ "_" ++ env ++ "_policy")
      (TemplateGenerator.generate_vault_policy_json g env)).roles.find?
      (fun r => r.1 == g ++ "_" ++ env ++ "_role") with
  | some x =>
      have hrole := create_or_get_role_id_found
        (VaultManager.create_policy s (g ++ "_" ++ env ++ "_policy")
          (TemplateGenerator.generate_vault_policy_json g env))
        (g ++ "_" ++ env ++ "_role") (g ++ "_" ++ env ++ "_policy") hf1 x hx
      have hgen : VaultManager.generate_vault_secret s g env ns =
          .ok (TemplateGenerator.generate_vault_k8s_secret g ns
                (b64encode x.2.role_id)
                (b64encode ("vault-secret-id-" ++
                  toString (VaultManager.create_policy s (g ++ "_" ++ env ++ "_policy")
                    (TemplateGenerator.generate_vault_policy_json g env)).secretCounter)),
               { VaultManager.create_policy s (g ++ "_" ++ env ++ "_policy")
                   (TemplateGenerator.generate_vault_policy_json g env) with
                 secretCounter := (VaultManager.create_policy s (g ++ "_" ++ env ++ "_policy")
                   (TemplateGenerator.generate_vault_policy_json g env)).secretCounter + 1 }) := by
        unfold VaultManager.generate_vault_secret
        simp only [hrole]
        rfl
      refine ⟨_, _, x.2.role_id,
        "vault-secret-id-" ++
          toString (VaultManager.create_policy s (g ++ "_" ++ env ++ "_policy")
            (TemplateGenerator.generate_vault_policy_json g env)).secretCounter,
        hgen, ?_, rfl, rfl, fun h => b64encode_ne_self _ h, fun h => b64encode_ne_self _ h⟩
      show ((VaultManager.create_policy s (g ++ "_" ++ env ++ "_policy")
          (TemplateGenerator.generate_vault_policy_json g env)).roles.find?
          (fun r => r.1 == g ++ "_" ++ env ++ "_role")).map (fun r => r.2.role_id) = _
      rw [hx]
      rfl
  | none =>
      have hrole := create_or_get_role_id_creates
        (VaultManager.create_policy s (g ++ "_" ++ env ++ "_policy")
          (TemplateGenerator.generate_vault_policy_json g env))
        (g ++ "_" ++ env ++ "_role") (g ++ "_" ++ env ++ "_policy") hf1 hx
      have hgen : VaultManager.generate_vault_secret s g env ns =
          .ok (TemplateGenerator.generate_vault_k8s_secret g ns
                (b64encode ("vault-role-id-" ++
                  toString (VaultManager.create_policy s (g ++ "_" ++ env ++ "_policy")
                    (TemplateGenerator.generate_vault_policy_json g env)).roleCounter))
                (b64encode ("vault-secret-id-" ++
                  toString (vaultWithNewRole
                    (VaultManager.create_policy s (g ++ "_" ++ env ++ "_policy")
                      (TemplateGenerator.generate_vault_policy_json g env))
                    (g ++ "_" ++ env ++ "_role") (g ++ "_" ++ env ++ "_policy")).secretCounter)),
               { vaultWithNewRole
                   (VaultManager.create_policy s (g ++ "_" ++ env ++ "_policy")
                     (TemplateGenerator.generate_vault_policy_json g env))
                   (g ++ "_" ++ env ++ "_role") (g ++ "_" ++ env ++ "_policy") with
                 secretCounter := (vaultWithNewRole
                   (VaultManager.create_policy s (g ++ "_" ++ env ++ "_policy")
                     (TemplateGenerator.generate_vault_policy_json g env))
                   (g ++ "_" ++ env ++ "_role") (g ++ "_" ++ env ++ "_policy")).secretCounter + 1 }) := by
        unfold VaultManager.generate_vault_secret
        simp only [hrole]
        rfl
      have hfind2 : (vaultWithNewRole
          (VaultManager.create_policy s (g ++ "_" ++ env ++ "_policy")
            (TemplateGenerator.generate_vault_policy_json g env))
          (g ++ "_" ++ env ++ "_role") (g ++ "_" ++ env ++ "_policy")).roles.find?
          (fun r => r.1 == g ++ "_" ++ env ++ "_role") =
          some (g ++ "_" ++ env ++ "_role",
            ({ role_id := "vault-role-id-" ++
                 toString (VaultManager.create_policy s (g ++ "_" ++ env ++ "_policy")
                   (TemplateGenerator.generate_vault_policy_json g env)).roleCounter,
               token_policies := [g ++ "_" ++ env ++ "_policy"] } : RoleRec)) := by
        show ((VaultManager.create_policy s (g ++ "_" ++ env ++ "_policy")
            (TemplateGenerator.generate_vault_policy_json g env)).roles ++ _).find? _ = _
        rw [List.find?_append, hx]
        simp
      refine ⟨_, _,
        "vault-role-id-" ++
          toString (VaultManager.create_policy s (g ++ "_" ++ env ++ "_policy")
            (TemplateGenerator.generate_vault_policy_json g env)).roleCounter,
        "vault-secret-id-" ++
          toString (vaultWithNewRole
            (VaultManager.create_policy s (g ++ "_" ++ env ++ "_policy")
              (TemplateGenerator.generate_vault_policy_json g env))
            (g ++ "_" ++ env ++ "_role") (g ++ "_" ++ env ++ "_policy")).secretCounter,
        hgen, ?_, rfl, rfl, fun h => b64encode_ne_self _ h, fun h => b64encode_ne_self _ h⟩
      show ((vaultWithNewRole
          (VaultManager.create_policy s (g ++ "_" ++ env ++ "_policy")
            (TemplateGenerator.generate_vault_policy_json g env))
          (g ++ "_" ++ env ++ "_role") (g ++ "_" ++ env ++ "_policy")).roles.find?
          (fun r => r.1 == g ++ "_" ++ env ++ "_role")).map (fun r => r.2.role_id) = _
      rw [hfind2]
      rfl

/-- C10 counterexample: with the stored role id being the empty string, the
`VAULT_ROLE_ID` data field is `""` and a single base64 decode of it yields
exactly the bytes of the original id — refuting "a single base64 decode of
either data field does not recover the original id" as a universally
quantified statement. -/
theorem claim_C10_counterexample :
    ∃ (doc : DVal) (s2 : VaultState),
      VaultManager.generate_vault_secret vaultState10 "g" "dev" "ns" = .ok (doc, s2) ∧
      (s2.roles.find? (fun r => r.1 == "g_dev_role")).map (fun r => r.2.role_id) =
        some "" ∧
      (doc.objGet "data").bind (fun d => d.objGet "VAULT_ROLE_ID") = some (.str "") ∧
      b64decode "" = some (strBytes "") := by
  refine ⟨_, _, rfl, rfl, rfl, rfl⟩

/-- C10 witness: the amended statement on the empty Vault server. -/
theorem claim_C10_witness :
    ∃ (doc : DVal) (s2 : VaultState) (role_id secret_id : String),
      VaultManager.generate_vault_secret vaultState0 "grp" "dev" "team-ns" = .ok (doc, s2) ∧
      (s2.roles.find? (fun r => r.1 == "grp" ++ "_" ++ "dev" ++ "_role")).map
          (fun r => r.2.role_id) = some role_id ∧
      (doc.objGet "data").bind (fun d => d.objGet "VAULT_ROLE_ID") =
        some (.str (b64encode (b64encode role_id))) ∧
      (doc.objGet "data").bind (fun d => d.objGet "VAULT_SECRET_ID") =
        some (.str (b64encode (b64encode secret_id))) ∧
      (role_id ≠ "" → b64encode role_id ≠ role_id) ∧
      (secret_id ≠ "" → b64encode secret_id ≠ secret_id) :=
  claim_C10_amended vaultState0 "grp" "dev" "team-ns" rfl
